import Mathlib

set_option maxRecDepth 4000

namespace GSVerify

/-!
Shallow embedding of the Gainspan Serial2WiFi protocol engine
(src/src/GSModule/GSCore.cpp).  Bytes are modelled as `Nat` values;
machine-integer wraparound is made explicit with `% 256` / `% 65536`
where the C code relies on it.  Constants and declarations that live in
the header file GSCore.h (which is not among the sources) are modelled
from the spec and carry a comment saying so.
-/

/-- Capacity of the bulk-data ring buffer `rx_data` (sizeof(rx_data)).
Modelled from the spec: GSCore.h is missing; spec section 3 requires a
power-of-two capacity whose modulo arithmetic coincides with the 8-bit
index type's natural wraparound, so the capacity 256 is used, making
index wraparound and modulo-capacity arithmetic the same operation. -/
def rxDataSize : Nat := 256

/-- Serialized size of an `RXFrame` record inside the ring buffer
(sizeof(RXFrame)).  Modelled from the spec: the record holds a cid byte,
a 16-bit length, a udp_server flag, a 4-byte ip and a 16-bit port,
giving 10 bytes. -/
def frameSize : Nat := 10

/-- Largest valid connection id (MAX_CID).  Modelled from the spec
(section 3): CIDs range over 0..=MAX_CID, a fixed small bound, e.g. 16. -/
def maxCid : Nat := 16

/-- Capacity of the async/header accumulation buffer (sizeof(rx_async)).
Modelled from the spec: a bounded header-accumulation buffer. -/
def rxAsyncSize : Nat := 64

/-- 16-bit decrement with the unsigned wraparound of `uint16_t`. -/
def dec16 (n : Nat) : Nat := (n + 65535) % 65536

/-- 8-bit decrement with the unsigned wraparound of `uint8_t`. -/
def dec8 (n : Nat) : Nat := (n + 255) % 256

/-- One ASCII digit of `GSCore::parseNumber`: `0-9`, then `a-z`, then
`A-Z` (the source never checks the digit value against the base). -/
def parseDigit (c : Nat) : Option Nat :=
  if 48 ≤ c ∧ c ≤ 57 then some (c - 48)
  else if 97 ≤ c ∧ c ≤ 122 then some (10 + (c - 97))
  else if 65 ≤ c ∧ c ≤ 90 then some (10 + (c - 65))
  else none

/-- Digit loop of `GSCore::parseNumber(uint16_t*, ...)`: before each
digit the accumulator is checked against 65535/10 (the source divides by
10 regardless of the base), then multiplied by the base and the digit
added, in `uint16_t` arithmetic.  Reading past the end of the available
bytes (undefined behaviour in C) is modelled as a failed parse. -/
def parseNumberGo : List Nat → Nat → Nat → Nat → Option Nat
  | _, 0, _, acc => some acc
  | [], _ + 1, _, _ => none
  | c :: rest, len + 1, base, acc =>
    if acc > 6553 then none
    else match parseDigit c with
      | none => none
      | some d => parseNumberGo rest len base ((acc * base + d) % 65536)

/-- `GSCore::parseNumber(uint16_t *out, const uint8_t *buf, uint8_t len,
uint8_t base)`: fixed-width ASCII-to-integer parsing. -/
def parseNumber16 (buf : List Nat) (len base : Nat) : Option Nat :=
  if base < 2 ∨ base > 36 then none
  else parseNumberGo buf len base 0

/-- `GSCore::parseNumber(uint8_t *out, ...)`: parses via the 16-bit
overload and rejects values exceeding the 8-bit range. -/
def parseNumber8 (buf : List Nat) (len base : Nat) : Option Nat :=
  match parseNumber16 buf len base with
  | none => none
  | some v => if v > 255 then none else some v

/-- A parsed IPv4 address: the four octets of an Arduino `IPAddress`
(each octet is a `uint8_t`). -/
structure IPAddr where
  o0 : Nat
  o1 : Nat
  o2 : Nat
  o3 : Nat
  deriving DecidableEq, Repr

/-- Octet read `(*ip)[i]`. -/
def ipGet (ip : IPAddr) (i : Nat) : Nat :=
  match i with
  | 0 => ip.o0
  | 1 => ip.o1
  | 2 => ip.o2
  | _ => ip.o3

/-- Octet write `(*ip)[i] = v`. -/
def ipSet (ip : IPAddr) (i : Nat) (v : Nat) : IPAddr :=
  match i with
  | 0 => { ip with o0 := v }
  | 1 => { ip with o1 := v }
  | 2 => { ip with o2 := v }
  | _ => { ip with o3 := v }

/-- `IPAddress` to `uint32_t` conversion (little-endian octet order). -/
def ipToU32 (ip : IPAddr) : Nat :=
  ip.o0 + ip.o1 * 256 + ip.o2 * 65536 + ip.o3 * 16777216

/-- Character loop of `GSCore::parseIpAddress`.  `i` is the current
octet index; a NUL byte terminates the loop (the C loop condition is
`*p && (end == NULL || p < end)`).  Octet stores go through `uint8_t`,
hence the `% 256`. -/
def parseIpGo : List Nat → Nat → IPAddr → Option IPAddr
  | [], _, ip => some ip
  | c :: rest, i, ip =>
    if c = 0 then some ip
    else if c = 46 then
      let i' := i + 1
      if i' ≥ 4 then none
      else parseIpGo rest i' (ipSet ip i' 0)
    else if c < 48 ∨ c > 57 then none
    else if ipGet ip i ≥ 100 ∨ (ipGet ip i = 25 ∧ c > 53) then none
    else parseIpGo rest i (ipSet ip i ((ipGet ip i * 10 + (c - 48)) % 256))

/-- `GSCore::parseIpAddress(IPAddress *ip, const char *str, uint16_t
len)`.  When `len` is zero the source parses up to the NUL terminator;
otherwise it stops after `len` bytes (or at an embedded NUL).  `some ip`
models a `true` return together with the octets written. -/
def parseIpAddress (str : List Nat) (len : Nat) : Option IPAddr :=
  parseIpGo (if len = 0 then str else str.take len) 0 ⟨0, 0, 0, 0⟩

/-- Synchronous response codes (enum GSResponse).  Modelled from the
spec: GSCore.h is missing; the spec (sections 4.4, 6) fixes the codes
`"0".."18"` as the module's non-verbose status codes, with SUCCESS = 0
and SOCK_FAIL = 3 (the code that carries a CID argument, which is why
the spec classifies a bare "3" as UNKNOWN). -/
inductive GSResponse
  | GS_SUCCESS
  | GS_FAILURE
  | GS_EINVAL
  | GS_SOCK_FAIL
  | GS_ENOCID
  | GS_EBADCID
  | GS_ENOTSUP
  | GS_CON_SUCCESS
  | GS_ECIDCLOSE
  | GS_DISASSO_EVT
  | GS_STBY_TMR_EVT
  | GS_STBY_ALM_EVT
  | GS_DPSLEEP_EVT
  | GS_BOOT_UNEXPEC
  | GS_ENOIP
  | GS_BOOT_INTERNAL
  | GS_BOOT_EXTERNAL
  | GS_NWCONN_SUCCESS
  | GS_LINK_LOST
  | GS_UNKNOWN_RESPONSE
  deriving DecidableEq, Repr

/-- The cast `(GSResponse)(n)` used by processResponseLine. -/
def gsResponseOfCode (n : Nat) : GSResponse :=
  match n with
  | 0 => .GS_SUCCESS
  | 1 => .GS_FAILURE
  | 2 => .GS_EINVAL
  | 3 => .GS_SOCK_FAIL
  | 4 => .GS_ENOCID
  | 5 => .GS_EBADCID
  | 6 => .GS_ENOTSUP
  | 7 => .GS_CON_SUCCESS
  | 8 => .GS_ECIDCLOSE
  | 9 => .GS_DISASSO_EVT
  | 10 => .GS_STBY_TMR_EVT
  | 11 => .GS_STBY_ALM_EVT
  | 12 => .GS_DPSLEEP_EVT
  | 13 => .GS_BOOT_UNEXPEC
  | 14 => .GS_ENOIP
  | 15 => .GS_BOOT_INTERNAL
  | 16 => .GS_BOOT_EXTERNAL
  | 17 => .GS_NWCONN_SUCCESS
  | 18 => .GS_LINK_LOST
  | _ => .GS_UNKNOWN_RESPONSE

/-- The numeric value of a GSResponse code (used by processAsync, which
compares an async subtype against GS_SOCK_FAIL). -/
def gsCode (r : GSResponse) : Nat :=
  match r with
  | .GS_SUCCESS => 0
  | .GS_FAILURE => 1
  | .GS_EINVAL => 2
  | .GS_SOCK_FAIL => 3
  | .GS_ENOCID => 4
  | .GS_EBADCID => 5
  | .GS_ENOTSUP => 6
  | .GS_CON_SUCCESS => 7
  | .GS_ECIDCLOSE => 8
  | .GS_DISASSO_EVT => 9
  | .GS_STBY_TMR_EVT => 10
  | .GS_STBY_ALM_EVT => 11
  | .GS_DPSLEEP_EVT => 12
  | .GS_BOOT_UNEXPEC => 13
  | .GS_ENOIP => 14
  | .GS_BOOT_INTERNAL => 15
  | .GS_BOOT_EXTERNAL => 16
  | .GS_NWCONN_SUCCESS => 17
  | .GS_LINK_LOST => 18
  | .GS_UNKNOWN_RESPONSE => 19

/-- Argument-shape validation of `GSCore::processResponseLine` (lines
1297-1376): after the code digits there must be a space or nothing;
then each code has a fixed argument shape.  The codes that are
asynchronous-only (GS_DISASSO_EVT .. GS_NWCONN_SUCCESS, GS_ECIDCLOSE)
always produce GS_UNKNOWN_RESPONSE: their case labels sit inside an
`if (GS_LOG_ERRORS && this->error)` statement, but every path through
them still returns GS_UNKNOWN_RESPONSE, so they collapse into the
default case here.  The second component models the cid written through
the `connect_cid` out-pointer. -/
def checkResponseArgs (code : GSResponse) (args : List Nat)
    (hasConnectCid : Bool) : GSResponse × Option Nat :=
  if args.length ≠ 0 ∧ args.headD 0 ≠ 32 then (.GS_UNKNOWN_RESPONSE, none)
  else match code with
  | .GS_SUCCESS | .GS_FAILURE | .GS_EINVAL | .GS_ENOCID | .GS_EBADCID
  | .GS_ENOTSUP | .GS_LINK_LOST | .GS_ENOIP =>
      if args.length ≠ 0 then (.GS_UNKNOWN_RESPONSE, none) else (code, none)
  | .GS_SOCK_FAIL =>
      if args.length ≠ 2 then (.GS_UNKNOWN_RESPONSE, none) else (code, none)
  | .GS_CON_SUCCESS =>
      if args.length ≠ 2 then (.GS_UNKNOWN_RESPONSE, none)
      else if ¬ hasConnectCid then (.GS_UNKNOWN_RESPONSE, none)
      else match parseNumber8 (args.drop 1) 1 16 with
        | none => (.GS_UNKNOWN_RESPONSE, none)
        | some cid => (.GS_CON_SUCCESS, some cid)
  | _ => (.GS_UNKNOWN_RESPONSE, none)

/-- `GSCore::processResponseLine(const uint8_t *buf, uint8_t len,
cid_t *connect_cid)`: classifies a completed synchronous response line.
`hasConnectCid` models whether the `connect_cid` pointer is non-null.
Byte values: 49 is the digit 1, 48-57 the digits, 79 75 the letters O
and K, 32 the space. -/
def processResponseLine (buf : List Nat) (hasConnectCid : Bool) :
    GSResponse × Option Nat :=
  if 2 ≤ buf.length ∧ buf.headD 0 = 49 ∧ 48 ≤ buf.getD 1 0 ∧ buf.getD 1 0 ≤ 56 then
    checkResponseArgs (gsResponseOfCode (10 + (buf.getD 1 0 - 48))) (buf.drop 2)
      hasConnectCid
  else if 1 ≤ buf.length ∧ 48 ≤ buf.headD 0 ∧ buf.headD 0 ≤ 57 then
    checkResponseArgs (gsResponseOfCode (buf.headD 0 - 48)) (buf.drop 1)
      hasConnectCid
  else if buf.length = 2 ∧ buf.headD 0 = 79 ∧ buf.getD 1 0 = 75 then
    checkResponseArgs .GS_SUCCESS (buf.drop 2) hasConnectCid
  else (.GS_UNKNOWN_RESPONSE, none)

/-- `GSCore::writeCommand(const char *fmt, va_list args)` (lines
434-457), with the varargs formatting abstracted: `cmd` is the fully
formatted command the format expansion would produce.  Per the C99
semantics of `vsnprintf(buf, sizeof(buf) - 2 = 126, ...)`, at most 125
bytes of the command are stored followed by a NUL terminator, and the
untruncated length is returned; lengths above 126 are clamped to 126
and logged.  The result is the byte sequence handed to writeRaw paired
with whether the truncation was logged. -/
def writeCommandBytes (cmd : List Nat) : List Nat × Bool :=
  let stored := cmd.take 125 ++ [0]
  if cmd.length > 126 then ((stored.take 126) ++ [13, 10], true)
  else ((stored.take cmd.length) ++ [13, 10], false)

/-- Per-CID connection record (struct ConnectionInfo, modelled from the
spec's data model, section 3: GSCore.h is missing). -/
structure Connection where
  connected : Bool
  error : Bool
  ssl : Bool
  remote_ip : Nat
  remote_port : Nat
  local_port : Nat
  deriving DecidableEq, Repr

/-- The edge-triggered event bitmask {ASSOCIATED, DISASSOCIATED,
NCM_CONNECTED, NCM_DISCONNECTED}, one Bool per bit. -/
structure Events where
  associated : Bool
  disassociated : Bool
  ncm_connected : Bool
  ncm_disconnected : Bool
  deriving DecidableEq, Repr

/-- Receive-side state machine modes (enum RXState). -/
inductive RxState
  | idle
  | esc
  | escZ
  | escA
  | escY1
  | escY2
  | escY3
  | async
  | bulk
  deriving DecidableEq, Repr

/-- A bulk-data frame header (struct RXFrame): cid, remaining length
(uint16_t), udp_server flag and, for UDP server frames, remote ip
(uint32_t) and port (uint16_t). -/
structure RXFrame where
  cid : Nat
  length : Nat
  udp_server : Bool
  ip : Nat
  port : Nat
  deriving DecidableEq, Repr

/-- The default-constructed `RXFrame()` returned by getFrameHeader on
failure: zero length (its boolean conversion, modelled as
`length ≠ 0`, is false).  Modelled from the spec: the constructor is in
the missing header; INVALID_CID is represented as 255. -/
def invalidFrame : RXFrame := ⟨255, 0, false, 0, 0⟩

/-- The engine state: the fields of class GSCore that the receive-side
protocol machine, ring buffer, connection table and event dispatcher
touch.  `transport` models the stream of bytes the transport adapter
will deliver (readRaw consumes its head); `ncm_auto_cid` is `none` when
the C field holds INVALID_CID. -/
structure GSState where
  rx_state : RxState
  rx_data : List Nat
  rx_data_head : Nat
  rx_data_tail : Nat
  tail_frame : RXFrame
  head_frame : RXFrame
  rx_async : List Nat
  rx_async_left : Nat
  rx_async_subtype : Nat
  connections : Nat → Connection
  events : Events
  associated : Bool
  ncm_auto_cid : Option Nat
  duringInit : Bool
  unrecoverableError : Bool
  transport : List Nat

/-- Pointwise update of the connection table at one cid. -/
def updateConn (f : Nat → Connection) (cid : Nat)
    (g : Connection → Connection) : Nat → Connection :=
  fun i => if i = cid then g (f i) else f i

/-- `GSCore::processDisconnect(cid_t cid)` (lines 1600-1615): ignore
already-disconnected cids; otherwise clear connected and ssl, and if
the cid is the NCM auto connection, clear the auto cid and either
cancel a pending NCM_CONNECTED event or queue NCM_DISCONNECTED. -/
def processDisconnect (s : GSState) (cid : Nat) : GSState :=
  if ¬ (s.connections cid).connected then s
  else
    let conns := updateConn s.connections cid
      (fun c => { c with connected := false, ssl := false })
    let s1 := { s with connections := conns }
    if some cid = s1.ncm_auto_cid then
      let s2 := { s1 with ncm_auto_cid := none }
      if s2.events.ncm_connected then
        { s2 with events := { s2.events with ncm_connected := false } }
      else
        { s2 with events := { s2.events with ncm_disconnected := true } }
    else s1

/-- Loop body of processDisassociation's cascade (lines 1571-1576):
for one cid, if it is connected, set its sticky error flag and
disconnect it. -/
def disassocStep (s : GSState) (cid : Nat) : GSState :=
  if (s.connections cid).connected then
    let conns := updateConn s.connections cid (fun c => { c with error := true })
    processDisconnect { s with connections := conns } cid
  else s

/-- `GSCore::processDisassociation()` (lines 1558-1577): ignore when
not associated; otherwise cancel a pending ASSOCIATED event or queue
DISASSOCIATED, clear `associated`, and disconnect every connected cid
with its error flag set. -/
def processDisassociation (s : GSState) : GSState :=
  if ¬ s.associated then s
  else
    let s1 :=
      if s.events.associated then
        { s with events := { s.events with associated := false } }
      else
        { s with events := { s.events with disassociated := true } }
    let s2 := { s1 with associated := false }
    (List.range (maxCid + 1)).foldl disassocStep s2

/-- `GSCore::processAssociation()` (lines 1543-1556): if the engine
still thought it was associated, process the missed disassociation
first; then set `associated` and queue the ASSOCIATED event. -/
def processAssociation (s : GSState) : GSState :=
  let s1 := if s.associated then processDisassociation s else s
  { s1 with associated := true,
            events := { s1.events with associated := true } }

/-- `GSCore::processConnect(cid, remote_ip, remote_port, local_port,
ncm)` (lines 1579-1598): re-entrant connect; for the NCM auto
connection, record the auto cid and queue NCM_CONNECTED; then fill in
the connection record, clearing the sticky error flag. -/
def processConnect (s : GSState) (cid rip rport lport : Nat) (ncm : Bool) :
    GSState :=
  let s1 := if (s.connections cid).connected then processDisconnect s cid else s
  let s2 :=
    if ncm then
      { s1 with ncm_auto_cid := some cid,
                events := { s1.events with ncm_connected := true } }
    else s1
  let conns := updateConn s2.connections cid
    (fun c => { c with remote_ip := rip, remote_port := rport,
                       local_port := lport, error := false,
                       connected := true })
  { s2 with connections := conns }

/-- `GSCore::processAsync()` (lines 1402-1541): validate and dispatch a
completed <ESC>A message.  The async subtype values are those of enum
GSAsync (SOCK_FAIL 0, CON_SUCCESS 1, ECIDCLOSE 2, DISASSO 3, standby
4-6, BOOT_UNEXPEC 7, ENOIP 8, boot 9-10, FAILURE 11, NWCONN_SUCCESS
12).  Note that the source compares the subtype against GS_SOCK_FAIL, a
GSResponse value (3), in the SOCK_FAIL/ECIDCLOSE branch where the
subtype is 0 or 2, so the error flag is never set there; the comparison
is embedded as written. -/
def processAsync (s : GSState) : Bool × GSState :=
  if s.rx_async_subtype > 12 then (false, s)
  else if s.rx_async.length < 1 then (false, s)
  else
    match parseNumber8 s.rx_async 1 16 with
    | none => (false, s)
    | some subtype =>
      if subtype ≠ s.rx_async_subtype then (false, s)
      else
        let argLen := s.rx_async.length - 1
        let args := s.rx_async.drop 1
        if argLen ≠ 0 ∧ args.headD 0 ≠ 32 then (false, s)
        else
          match s.rx_async_subtype with
          | 1 =>
            if argLen < 2 then (false, s)
            else if argLen = 2 then
              match parseNumber8 (args.drop 1) 1 16 with
              | none => (false, s)
              | some cid => (true, processConnect s cid 0 0 0 true)
            else (false, s)
          | 0 | 2 =>
            if argLen ≠ 2 then (false, s)
            else
              match parseNumber8 (args.drop 1) 1 16 with
              | none => (false, s)
              | some cid =>
                let conns := updateConn s.connections cid
                  (fun c => { c with error := true })
                let s1 :=
                  if s.rx_async_subtype = gsCode .GS_SOCK_FAIL then
                    { s with connections := conns }
                  else s
                (true, processDisconnect s1 cid)
          | sub =>
            if argLen > 0 then (false, s)
            else
              match sub with
              | 11 => (false, s)
              | 3 => (true, processDisassociation s)
              | 4 | 5 | 6 => (false, s)
              | 7 | 9 | 10 =>
                if s.duringInit then (true, s) else (false, s)
              | 12 => (true, processAssociation s)
              | 8 => (true, processDisassociation s)
              | _ => (false, s)

/-- Serialization of an RXFrame record into its raw bytes, modelling
the `memcpy(&this->rx_data[head], frame, sizeof(*frame))` of
bufferFrameHeader.  The concrete layout (cid, little-endian length,
udp_server flag, little-endian ip and port) stands in for the
compiler's struct layout; the claims depend only on the record
occupying `frameSize` bytes verbatim and on `decodeFrame` being its
inverse. -/
def encodeFrame (f : RXFrame) : List Nat :=
  [f.cid % 256, f.length % 256, f.length / 256 % 256,
   if f.udp_server then 1 else 0,
   f.ip % 256, f.ip / 256 % 256, f.ip / 65536 % 256, f.ip / 16777216 % 256,
   f.port % 256, f.port / 256 % 256]

/-- Deserialization of an RXFrame record from its raw bytes, modelling
the `memcpy(frame, &this->rx_data[tail], sizeof(*frame))` of
loadFrameHeader. -/
def decodeFrame (bs : List Nat) : RXFrame where
  cid := bs.getD 0 0
  length := bs.getD 1 0 + bs.getD 2 0 * 256
  udp_server := bs.getD 3 0 ≠ 0
  ip := bs.getD 4 0 + bs.getD 5 0 * 256 + bs.getD 6 0 * 65536 +
    bs.getD 7 0 * 16777216
  port := bs.getD 8 0 + bs.getD 9 0 * 256

/-- Byte-wise store of a block into the ring-buffer byte list at a
given position (memcpy into rx_data). -/
def writeBytes : List Nat → Nat → List Nat → List Nat
  | l, _, [] => l
  | l, p, b :: bs => writeBytes (l.set p b) (p + 1) bs

/-- `GSCore::readRaw()` in serial mode (lines 697-705): when the
unrecoverable-error latch is set, return -1 (`none`) without touching
the transport; otherwise take the next available transport byte, or
-1 when none is ready. -/
def readRaw (s : GSState) : GSState × Option Nat :=
  if s.unrecoverableError then (s, none)
  else
    match s.transport with
    | [] => (s, none)
    | b :: rest => ({ s with transport := rest }, some b)

/-- `GSCore::getData()` (lines 1203-1221): pop one byte off the ring
buffer (advancing tail and shrinking tail_frame.length), or, with an
empty buffer, read directly from the transport, shrinking both
tail_frame.length and head_frame.length and leaving BULK state when
the in-flight frame completes. -/
def getData (s : GSState) : GSState × Option Nat :=
  if s.rx_data_tail ≠ s.rx_data_head then
    let c := s.rx_data.getD s.rx_data_tail 0
    ({ s with rx_data_tail := (s.rx_data_tail + 1) % rxDataSize,
              tail_frame :=
                { s.tail_frame with length := dec16 s.tail_frame.length } },
      some c)
  else
    match readRaw s with
    | (s1, some b) =>
      let s2 :=
        { s1 with
            tail_frame :=
              { s1.tail_frame with length := dec16 s1.tail_frame.length },
            head_frame :=
              { s1.head_frame with length := dec16 s1.head_frame.length } }
      if s2.head_frame.length = 0 then
        ({ s2 with rx_state := .idle }, some b)
      else (s2, some b)
    | (s1, none) => (s1, none)

/-- `GSCore::loadFrameHeader(RXFrame*)` (lines 1168-1177): if the
record was not stored contiguously before the wrap point, relocate the
tail to 0 first; then deserialize `frameSize` bytes at the tail into
the new tail_frame and advance the tail past them. -/
def loadFrameHeader (s : GSState) : GSState :=
  let tail :=
    if rxDataSize - s.rx_data_tail < frameSize then 0 else s.rx_data_tail
  let fr := decodeFrame ((s.rx_data.drop tail).take frameSize)
  { s with tail_frame := fr, rx_data_tail := (tail + frameSize) % rxDataSize }

mutual

/-- `GSCore::processIncoming(int c)` (lines 889-1123): the RX state
machine.  One logical byte is classified according to the current
state; escape sequences accumulate fixed-length headers in rx_async,
bulk payload goes through bufferIncomingData, completed async payloads
are dispatched via processAsync.  Byte values: 27 ESC, 90 Z, 65 A,
121 y, 32 space, 9 tab.  The fuel argument bounds the call depth of
the mutually recursive operations and is threaded structurally; with
sufficient fuel it never runs out (the exhausted case returns the state
unchanged). -/
def processIncoming : Nat → GSState → Option Nat → Bool × GSState
  | _, s, none => (false, s)
  | 0, s, some _ => (true, s)
  | fuel + 1, s, some c =>
    match s.rx_state with
    | .idle =>
      if c = 27 then (true, { s with rx_state := .esc }) else (true, s)
    | .esc =>
      if c = 90 then
        (true, { s with rx_state := .escZ, rx_async_left := 5,
                        rx_async := [] })
      else if c = 65 then
        (true, { s with rx_state := .escA, rx_async_left := 3,
                        rx_async := [] })
      else if c = 121 then
        (true, { s with rx_state := .escY1, rx_async := [] })
      else (true, { s with rx_state := .idle })
    | .bulk =>
      let s1 := bufferIncomingData fuel s c
      let s2 :=
        { s1 with head_frame :=
            { s1.head_frame with length := dec16 s1.head_frame.length } }
      if s2.head_frame.length = 0 then
        (true, { s2 with rx_state := .idle })
      else (true, s2)
    | st =>
      let s := if s.rx_async.length < rxAsyncSize
               then { s with rx_async := s.rx_async ++ [c] } else s
      match st with
      | .escZ =>
        let s := { s with rx_async_left := dec8 s.rx_async_left }
        if s.rx_async_left = 0 then
          match parseNumber8 s.rx_async 1 16 with
          | none => (true, { s with rx_state := .idle })
          | some cid =>
            let s := { s with head_frame := { s.head_frame with cid := cid } }
            match parseNumber16 (s.rx_async.drop 1) 4 10 with
            | none => (true, { s with rx_state := .idle })
            | some len =>
              let s := { s with head_frame :=
                { s.head_frame with length := len, udp_server := false } }
              let s := bufferFrameHeader fuel s s.head_frame
              (true, { s with rx_state := .bulk })
        else (true, s)
      | .escY1 =>
        if c = 32 then (true, { s with rx_state := .escY2 }) else (true, s)
      | .escY2 =>
        if c = 9 then
          (true, { s with rx_state := .escY3, rx_async_left := 4 })
        else (true, s)
      | .escY3 =>
        let s := { s with rx_async_left := dec8 s.rx_async_left }
        if s.rx_async_left = 0 then
          let payload := s.rx_async.drop 1
          match payload.findIdx? (· = 32) with
          | none => (true, { s with rx_state := .idle })
          | some iplen =>
            let afterIp := payload.drop (iplen + 1)
            match afterIp.findIdx? (· = 9) with
            | none => (true, { s with rx_state := .idle })
            | some portlen =>
              let lenbytes := afterIp.drop (portlen + 1)
              match parseNumber8 s.rx_async 1 16 with
              | none => (true, { s with rx_state := .idle })
              | some cid =>
                let s := { s with head_frame :=
                  { s.head_frame with cid := cid } }
                match parseIpAddress payload iplen with
                | none => (true, { s with rx_state := .idle })
                | some ip =>
                  let s := { s with head_frame :=
                    { s.head_frame with ip := ipToU32 ip } }
                  match parseNumber16 afterIp portlen 10 with
                  | none => (true, { s with rx_state := .idle })
                  | some port =>
                    let s := { s with head_frame :=
                      { s.head_frame with port := port } }
                    match parseNumber16 lenbytes 4 10 with
                    | none => (true, { s with rx_state := .idle })
                    | some len =>
                      let s := { s with head_frame :=
                        { s.head_frame with length := len,
                                            udp_server := true } }
                      let s := bufferFrameHeader fuel s s.head_frame
                      (true, { s with rx_state := .bulk })
        else (true, s)
      | .escA =>
        let s := { s with rx_async_left := dec8 s.rx_async_left }
        if s.rx_async_left = 0 then
          match parseNumber8 s.rx_async 1 16 with
          | none => (true, { s with rx_state := .idle })
          | some sub =>
            let s := { s with rx_async_subtype := sub }
            match parseNumber8 (s.rx_async.drop 1) 2 10 with
            | none => (true, { s with rx_state := .idle })
            | some left2 =>
              (true, { s with rx_async_left := left2, rx_state := .async,
                              rx_async := [] })
        else (true, s)
      | .async =>
        let s := { s with rx_async_left := dec8 s.rx_async_left }
        if s.rx_async_left = 0 then
          let s := { s with rx_state := .idle }
          (true, (processAsync s).2)
        else (true, s)
      | _ => (true, s)

/-- `GSCore::bufferIncomingData(uint8_t c)` (lines 1125-1133): if the
ring buffer is full, drop the oldest byte first via dropData(1); then
store the new byte at the head and advance the head. -/
def bufferIncomingData : Nat → GSState → Nat → GSState
  | 0, s, _ => s
  | fuel + 1, s, c =>
    let next_head := (s.rx_data_head + 1) % rxDataSize
    let s1 := if next_head = s.rx_data_tail then dropData fuel s 1 else s
    { s1 with rx_data := s1.rx_data.set s1.rx_data_head c,
              rx_data_head := next_head }

/-- `GSCore::bufferFrameHeader(const RXFrame*)` (lines 1135-1166): with
an empty ring buffer the (head) frame becomes the tail_frame directly
(the source assigns `this->tail_frame = this->head_frame`); otherwise
the record is serialized into the buffer at the head, relocating the
head to 0 first when the record would not fit contiguously before the
wrap point (the first relocation drop is `dropData(tail - tail)`, a
no-op, exactly as in the source), and dropping bytes from the tail
when the free room is smaller than the record. -/
def bufferFrameHeader : Nat → GSState → RXFrame → GSState
  | 0, s, _ => s
  | fuel + 1, s, frame =>
    if s.rx_data_head = s.rx_data_tail then
      { s with tail_frame := s.head_frame }
    else
      let s1 :=
        if s.rx_data_head > rxDataSize - frameSize then
          let sa :=
            if s.rx_data_tail > s.rx_data_head then
              dropData fuel s (s.rx_data_tail - s.rx_data_tail)
            else s
          let sb := if sa.rx_data_tail = 0 then dropData fuel sa 1 else sa
          { sb with rx_data_head := 0 }
        else s
      let free := (s1.rx_data_tail + rxDataSize - s1.rx_data_head - 1) %
        rxDataSize
      let s2 := if free < frameSize then dropData fuel s1 (frameSize - free)
                else s1
      { s2 with rx_data := writeBytes s2.rx_data s2.rx_data_head
                  (encodeFrame frame),
                rx_data_head := (s2.rx_data_head + frameSize) % rxDataSize }

/-- `GSCore::dropData(uint8_t num_bytes)` (lines 1245-1256): read and
discard bytes via readData, marking the owning connection's sticky
error flag for every byte actually dropped. -/
def dropData : Nat → GSState → Nat → GSState
  | 0, s, _ => s
  | _ + 1, s, 0 => s
  | fuel + 1, s, num + 1 =>
    let r := readDataCid fuel s
    let s2 :=
      match r.2 with
      | some bc =>
        let conns := updateConn r.1.connections bc.2
          (fun c => { c with error := true })
        { r.1 with connections := conns }
      | none => r.1
    dropData fuel s2 num

/-- `GSCore::readData(cid_t *cid)` (lines 287-297): fetch a frame
header for any cid, then read one byte of data, reporting the cid of
the current tail frame alongside. -/
def readDataCid : Nat → GSState → GSState × Option (Nat × Nat)
  | 0, s => (s, none)
  | fuel + 1, s =>
    let gf := getFrameHeader fuel s none
    if gf.2.length = 0 then (gf.1, none)
    else
      match getData gf.1 with
      | (s2, some b) => (s2, some (b, s2.tail_frame.cid))
      | (s2, none) => (s2, none)

/-- `GSCore::getFrameHeader(cid_t cid)` (lines 1179-1201): when the
current tail frame is exhausted, either deserialize the next queued
header out of the ring buffer, or poll the transport until a frame
arrives; then return the tail frame if the cid matches (`none` models
ANY_CID), and the default `RXFrame()` otherwise.  The RXFrame boolean
conversion is modelled as `length ≠ 0` (the conversion operator lives
in the missing header; a default-constructed frame has length 0). -/
def getFrameHeader : Nat → GSState → Option Nat → GSState × RXFrame
  | 0, s, _ => (s, invalidFrame)
  | fuel + 1, s, cid =>
    let step : GSState × Bool :=
      if s.tail_frame.length = 0 then
        if s.rx_data_tail ≠ s.rx_data_head then (loadFrameHeader s, true)
        else pollFrame fuel s
      else (s, true)
    if step.2 = false then (step.1, invalidFrame)
    else if cid = none ∨ some step.1.tail_frame.cid = cid then
      (step.1, step.1.tail_frame)
    else (step.1, invalidFrame)

/-- The polling loop of getFrameHeader (lines 1189-1193): while the
tail frame is empty, feed transport bytes through processIncoming;
`false` models the early `return RXFrame()` when the transport runs
dry. -/
def pollFrame : Nat → GSState → GSState × Bool
  | 0, s => (s, false)
  | fuel + 1, s =>
    if s.tail_frame.length ≠ 0 then (s, true)
    else
      let rr := readRaw s
      let pi := processIncoming fuel rr.1 rr.2
      if pi.1 then pollFrame fuel pi.2 else (pi.2, false)

end

/-- Physical occupancy of the ring buffer: the number of byte slots
between tail and head, modulo the capacity. -/
def rxOccupancy (s : GSState) : Nat :=
  (s.rx_data_head + rxDataSize - s.rx_data_tail) % rxDataSize

/-- Reserved SPI wire byte values.  Modelled from the spec (section
4.1 names IDLE, ESCAPE, XON, XOFF, ACK, ALL-ONES, ALL-ZEROS); the
numeric values live in the missing GSCore.h.  The claims depend only
on ALL-ONES being 0xff and on the values being distinct. -/
def SPI_SPECIAL_ALL_ONE : Nat := 0xff

/-- Reserved SPI wire byte: all zeros. -/
def SPI_SPECIAL_ALL_ZERO : Nat := 0x00

/-- Reserved SPI wire byte: ack. -/
def SPI_SPECIAL_ACK : Nat := 0xf3

/-- Reserved SPI wire byte: idle filler. -/
def SPI_SPECIAL_IDLE : Nat := 0xf5

/-- Reserved SPI wire byte: flow control off. -/
def SPI_SPECIAL_XOFF : Nat := 0xfa

/-- Reserved SPI wire byte: escape. -/
def SPI_SPECIAL_ESC : Nat := 0xfb

/-- Reserved SPI wire byte: flow control on. -/
def SPI_SPECIAL_XON : Nat := 0xfd

/-- The xor mask applied to escaped data bytes. -/
def SPI_ESC_XOR : Nat := 0x20

/-- The SPI link-layer state: the `spi_prev_was_esc` and `spi_xoff`
fields of GSCore, the function-static `errorcount` of
processSpiSpecial, and the `unrecoverableError` latch. -/
structure LinkState where
  spi_prev_was_esc : Bool
  spi_xoff : Bool
  errorcount : Nat
  unrecoverableError : Bool
  deriving DecidableEq, Repr

/-- The link state after GSCore::_begin: no pending escape, flow on,
zero error count (static initialization), latch clear. -/
def linkInit : LinkState := ⟨false, false, 0, false⟩

/-- `GSCore::isSpiSpecial(uint8_t c)` (lines 873-887). -/
def isSpiSpecial (c : Nat) : Bool :=
  c = SPI_SPECIAL_ALL_ONE ∨ c = SPI_SPECIAL_ALL_ZERO ∨
  c = SPI_SPECIAL_ACK ∨ c = SPI_SPECIAL_IDLE ∨ c = SPI_SPECIAL_XOFF ∨
  c = SPI_SPECIAL_XON ∨ c = SPI_SPECIAL_ESC

/-- `GSCore::processSpiSpecial(uint8_t c)` (lines 813-871): unescape a
byte following an escape; otherwise reset the consecutive all-ones
count on any other byte, count consecutive all-ones bytes and latch
the permanent unrecoverable fault once more than 20 have been seen,
absorb the reserved values (updating flow-control state for XON/XOFF
and the pending-escape flag for ESC) and pass everything else through
as a logical data byte (`none` models the -1 "no data" result).  The
`errorcount` increment is `uint8_t` arithmetic. -/
def processSpiSpecial (s : LinkState) (c : Nat) : LinkState × Option Nat :=
  if s.spi_prev_was_esc then
    ({ s with spi_prev_was_esc := false }, some (Nat.xor c SPI_ESC_XOR))
  else
    let s := if c ≠ SPI_SPECIAL_ALL_ONE then { s with errorcount := 0 }
             else s
    if c = SPI_SPECIAL_ALL_ONE then
      let ec := (s.errorcount + 1) % 256
      if ec > 20 then
        ({ s with errorcount := 0, unrecoverableError := true }, none)
      else ({ s with errorcount := ec }, none)
    else if c = SPI_SPECIAL_ALL_ZERO then (s, none)
    else if c = SPI_SPECIAL_ACK then (s, none)
    else if c = SPI_SPECIAL_IDLE then (s, none)
    else if c = SPI_SPECIAL_XOFF then ({ s with spi_xoff := true }, none)
    else if c = SPI_SPECIAL_XON then ({ s with spi_xoff := false }, none)
    else if c = SPI_SPECIAL_ESC then
      ({ s with spi_prev_was_esc := true }, none)
    else (s, some c)

/-- Feeding a sequence of received wire bytes through
processSpiSpecial, keeping only the state. -/
def processSpiList : LinkState → List Nat → LinkState
  | s, [] => s
  | s, c :: rest => processSpiList (processSpiSpecial s c).1 rest

/-- One full-duplex SPI byte exchange (transferSpi): the master clocks
out one byte and simultaneously receives the next wire byte; an
exhausted wire model yields idle filler, as an idle module does. -/
def wireNext : List Nat → Nat × List Nat
  | [] => (SPI_SPECIAL_IDLE, [])
  | b :: rest => (b, rest)

/-- The do-while polling loop of `GSCore::readRaw()` in SPI mode
(lines 767-769): clock out idle bytes until a logical data byte
appears or the `tries` budget runs out.  Returns the link state, the
remaining wire bytes, the bytes clocked out on the wire, and the
logical result. -/
def readRawSpiLoop : LinkState → List Nat → Nat →
    LinkState × List Nat × List Nat × Option Nat
  | s, wire, 0 =>
    let w := wireNext wire
    let p := processSpiSpecial s w.1
    (p.1, w.2, [SPI_SPECIAL_IDLE], p.2)
  | s, wire, tries + 1 =>
    let w := wireNext wire
    let p := processSpiSpecial s w.1
    match p.2 with
    | some v => (p.1, w.2, [SPI_SPECIAL_IDLE], some v)
    | none =>
      if tries = 0 then (p.1, w.2, [SPI_SPECIAL_IDLE], none)
      else
        let r := readRawSpiLoop p.1 w.2 tries
        (r.1, r.2.1, SPI_SPECIAL_IDLE :: r.2.2.1, r.2.2.2)

/-- `GSCore::readRaw()` in SPI mode (lines 697-776): when the
unrecoverable-error latch is set, return -1 immediately, with no SPI
transfer at all (the wire is untouched and nothing is clocked out);
otherwise poll the module.  The data-ready-pin and poll-interval logic
that picks the retry budget is abstracted into the `tries` argument. -/
def readRaw_spi (s : LinkState) (wire : List Nat) (tries : Nat) :
    LinkState × List Nat × List Nat × Option Nat :=
  if s.unrecoverableError then (s, wire, [], none)
  else readRawSpiLoop s wire tries

/-- The XOFF spin of `GSCore::writeRaw` in SPI mode (lines 676-680):
while the module asserts flow control, clock out idle bytes, feeding
the received bytes through the link framer; the fault check at the top
of each loop iteration aborts the whole write.  Returns the link
state, remaining wire bytes, clocked-out bytes, logical bytes
forwarded to processIncoming, the remaining tries budget, and whether
the write was aborted by the fault latch. -/
def spiXoffWait : LinkState → List Nat → Nat →
    LinkState × List Nat × List Nat × List Nat × Nat × Bool
  | s, wire, 0 => (s, wire, [], [], 0, false)
  | s, wire, t + 1 =>
    if s.unrecoverableError then (s, wire, [], [], t + 1, true)
    else if s.spi_xoff then
      let w := wireNext wire
      let p := processSpiSpecial s w.1
      let r := spiXoffWait p.1 w.2 t
      (r.1, r.2.1, SPI_SPECIAL_IDLE :: r.2.2.1,
        p.2.toList ++ r.2.2.2.1, r.2.2.2.2.1, r.2.2.2.2.2)
    else (s, wire, [], [], t + 1, false)

/-- The data loop of `GSCore::writeRaw` in SPI mode (lines 671-694):
for each buffered byte, first wait out flow control (aborting if the
fault latch is set), then clock the byte out, escaping it if its value
collides with a reserved wire value; every received byte goes through
the link framer and on to processIncoming (collected here in a list).
Returns the link state, the remaining wire bytes, the bytes clocked
out, and the logical bytes forwarded to processIncoming. -/
def writeRawSpiGo : LinkState → List Nat → List Nat → Nat →
    LinkState × List Nat × List Nat × List Nat
  | s, wire, [], _ => (s, wire, [], [])
  | s, wire, b :: rest, tries =>
    if tries = 0 then (s, wire, [], [])
    else
      let wres := spiXoffWait s wire tries
      let s1 := wres.1
      let w1 := wres.2.1
      let m1 := wres.2.2.1
      let f1 := wres.2.2.2.1
      let t1 := wres.2.2.2.2.1
      if wres.2.2.2.2.2 ∨ t1 = 0 then (s1, w1, m1, f1)
      else
        if isSpiSpecial b then
          let wa := wireNext w1
          let pa := processSpiSpecial s1 wa.1
          let wb := wireNext wa.2
          let pb := processSpiSpecial pa.1 wb.1
          let r := writeRawSpiGo pb.1 wb.2 rest t1
          (r.1, r.2.1,
            m1 ++ [SPI_SPECIAL_ESC, Nat.xor b SPI_ESC_XOR] ++ r.2.2.1,
            f1 ++ pa.2.toList ++ pb.2.toList ++ r.2.2.2)
        else
          let wa := wireNext w1
          let pa := processSpiSpecial s1 wa.1
          let r := writeRawSpiGo pa.1 wa.2 rest t1
          (r.1, r.2.1, m1 ++ [b] ++ r.2.2.1,
            f1 ++ pa.2.toList ++ r.2.2.2)

/-- `GSCore::writeRaw(const uint8_t *buf, uint16_t len)` in SPI mode:
the loop runs with a budget of 1024 tries. -/
def writeRaw_spi (s : LinkState) (wire : List Nat) (buf : List Nat) :
    LinkState × List Nat × List Nat × List Nat :=
  writeRawSpiGo s wire buf 1024

/-- Description of the effect of dropping one buffered payload byte
(used only to state theorems about dropData): the tail advances by
one, the tail frame logically shrinks by one byte, and the connection
owning the tail frame gets its sticky error flag. -/
def dropOne (s : GSState) : GSState :=
  { s with rx_data_tail := (s.rx_data_tail + 1) % rxDataSize,
           tail_frame :=
             { s.tail_frame with length := s.tail_frame.length - 1 },
           connections := updateConn s.connections s.tail_frame.cid
             (fun c => { c with error := true }) }

/-- Description of the effect of dropping `k` buffered payload bytes
of the current tail frame (used only to state theorems about
dropData). -/
def dropCount (k : Nat) (s : GSState) : GSState :=
  if k = 0 then s
  else
    { s with rx_data_tail := (s.rx_data_tail + k) % rxDataSize,
             tail_frame :=
               { s.tail_frame with length := s.tail_frame.length - k },
             connections := updateConn s.connections s.tail_frame.cid
               (fun c => { c with error := true }) }

/-- Where bufferFrameHeader serializes a record on a nonempty buffer
(used only to state theorems): index 0 when the record starting at the
head would straddle the wrap point, the head itself otherwise. -/
def startPos (s : GSState) : Nat :=
  if rxDataSize - frameSize < s.rx_data_head then 0 else s.rx_data_head

/-- The free room bufferFrameHeader sees after the relocation step
(used only to state theorems). -/
def freeRoom (s : GSState) : Nat :=
  (s.rx_data_tail + rxDataSize - startPos s - 1) % rxDataSize

/-- How many tail bytes bufferFrameHeader drops to make room for a
record (used only to state theorems). -/
def dropsNeeded (s : GSState) : Nat :=
  if freeRoom s < frameSize then frameSize - freeRoom s else 0

/-- The intermediate state of bufferFrameHeader on a nonempty buffer,
just before the record is serialized: the relocation step followed by
the tail drops (used only to state and prove theorems; the chain is
copied verbatim from the nonempty branch of bufferFrameHeader). -/
def bfhDropState (fuel : Nat) (s : GSState) : GSState :=
  let s1 :=
    if s.rx_data_head > rxDataSize - frameSize then
      let sa :=
        if s.rx_data_tail > s.rx_data_head then
          dropData fuel s (s.rx_data_tail - s.rx_data_tail)
        else s
      let sb := if sa.rx_data_tail = 0 then dropData fuel sa 1 else sa
      { sb with rx_data_head := 0 }
    else s
  let free := (s1.rx_data_tail + rxDataSize - s1.rx_data_head - 1) %
    rxDataSize
  if free < frameSize then dropData fuel s1 (frameSize - free) else s1

/-- The response-line accumulation state of
`GSCore::readResponseInternal` (lines 470-588): the caller's
destination buffer `buf` with its capacity `len` (the in/out `*len`
argument), the local variables `read` (bytes stored so far),
`line_start` (start of the current, incomplete line; everything below
it is completed-but-unconsumed data), `skip_line` and
`dropped_data`. -/
structure LineAccState where
  buf : List Nat
  len : Nat
  read : Nat
  line_start : Nat
  skip_line : Bool
  dropped_data : Bool
  deriving DecidableEq, Repr

/-- Result of processing one byte in the accumulation loop: either the
loop continues with an updated state, or a recognized response ends
the call. -/
inductive LineStep
  | cont (st : LineAccState)
  | done (res : GSResponse) (st : LineAccState)
  deriving DecidableEq, Repr

/-- The eviction rewrite of readResponseInternal's buffer-full branch
(lines 568-573): `memmove(&buf[line_start-1], &buf[line_start],
read - line_start)` shifts the current line one byte down over the
last byte of the previous data (leaving a stale duplicate of the
line's old last byte at its old position), then `buf[read] = c` stores
the incoming byte at index `read`.  Since this branch runs only when
`read` equals the buffer capacity, that final store lands one slot
past the end of the destination buffer (an out-of-bounds write in the
C source); the list model drops writes beyond the end. -/
def evictShift (buf : List Nat) (line_start read c : Nat) : List Nat :=
  (buf.take (line_start - 1) ++
    (buf.drop line_start).take (read - line_start) ++
    buf.drop (read - 1)).set read c

/-- One iteration of `GSCore::readResponseInternal`'s loop (lines
499-586) for a byte `c` that reaches the synchronous-text path (RX
state IDLE and `c` is not the escape byte): terminator bytes (13, 10)
complete or discard the line via processResponseLine, other bytes are
accumulated, with the buffer-full policy of lines 550-585.  `maxResp`
is MAX_RESPONSE_SIZE (a constant from the missing header); `keepData`,
`hasCallback`, `hasCid` model the keep_data argument, the callback
pointer and the connect_cid pointer. -/
def responseLineStep (maxResp : Nat) (keepData hasCallback hasCid : Bool)
    (st : LineAccState) (c : Nat) : LineStep :=
  if c = 13 ∨ c = 10 then
    if st.read - st.line_start = 0 then .cont st
    else if st.skip_line then
      .cont { st with skip_line := false, read := st.line_start }
    else
      let st1 := { st with skip_line := false }
      let line := (st1.buf.drop st1.line_start).take
        (st1.read - st1.line_start)
      let res := (processResponseLine line hasCid).1
      if keepData ∧ ¬ hasCallback ∧ ¬ st1.dropped_data ∧
          res = .GS_UNKNOWN_RESPONSE then
        let st2 :=
          if st1.read < st1.len then
            { st1 with buf := st1.buf.set st1.read 13,
                       read := st1.read + 1 }
          else st1
        let st3 :=
          if st2.read < st2.len then
            { st2 with buf := st2.buf.set st2.read 10,
                       read := st2.read + 1 }
          else st2
        .cont { st3 with line_start := st3.read }
      else
        let st2 := { st1 with read := st1.line_start }
        if res ≠ .GS_UNKNOWN_RESPONSE ∧ res ≠ .GS_CON_SUCCESS then
          .done res st2
        else .cont st2
  else
    if st.read < st.len then
      .cont { st with buf := st.buf.set st.read c, read := st.read + 1 }
    else if maxResp ≤ st.read - st.line_start then
      .cont { st with skip_line := true, dropped_data := true }
    else if 0 < st.line_start then
      .cont { st with buf := evictShift st.buf st.line_start st.read c,
                      line_start := st.line_start - 1,
                      dropped_data := true }
    else .cont { st with dropped_data := true }

/-- The accumulation state used in the C7 counterexample: capacity 6,
previous completed-but-unconsumed data 80 81 82 at positions 0-2,
current line 65 66 67 at positions 3-5, buffer full. -/
def c7State : LineAccState :=
  ⟨[80, 81, 82, 65, 66, 67], 6, 6, 3, false, false⟩

/-- A connection record with all fields zeroed, as after the
`memset(this->connections, 0, ...)` of `GSCore::_begin`. -/
def baseConnection : Connection := ⟨false, false, false, 0, 0, 0⟩

/-- An engine state as established by `GSCore::_begin` (lines 101-168):
idle receive state, empty ring buffer, zero-length tail frame, no
events, not associated, no NCM auto cid, zeroed connection table. -/
def baseState : GSState where
  rx_state := .idle
  rx_data := List.replicate rxDataSize 0
  rx_data_head := 0
  rx_data_tail := 0
  tail_frame := ⟨0, 0, false, 0, 0⟩
  head_frame := ⟨0, 0, false, 0, 0⟩
  rx_async := []
  rx_async_left := 0
  rx_async_subtype := 0
  connections := fun _ => baseConnection
  events := ⟨false, false, false, false⟩
  associated := false
  ncm_auto_cid := none
  duringInit := false
  unrecoverableError := false
  transport := []

/-- An associated engine state with CIDs 1 and 3 connected and an
ASSOCIATED event still pending (queued but not yet dispatched). -/
def c3State : GSState :=
  { baseState with
      associated := true
      events := ⟨true, false, false, false⟩
      connections := fun cid =>
        if cid = 1 ∨ cid = 3 then { baseConnection with connected := true }
        else baseConnection }

/-- A state holding a completed async message whose header subtype (3)
disagrees with the subtype digit in the payload (byte 50, the digit 2). -/
def c10State : GSState :=
  { baseState with rx_async := [50], rx_async_subtype := 3 }

/-- A state whose ring buffer is full (next(head) = tail) and whose
tail frame, owned by cid 2, covers the whole occupancy. -/
def c2State : GSState :=
  { baseState with
      rx_data_head := 5,
      rx_data_tail := 6,
      tail_frame := ⟨2, 300, false, 0, 0⟩ }

/-- A full ring buffer (head 255, tail 0) whose tail frame is
exhausted (length 0) while a serialized header record for cid 4 with
100 payload bytes sits at the tail: the state of the C2
counterexample. -/
def c2LoadState : GSState :=
  { baseState with
      rx_data := encodeFrame ⟨4, 100, false, 0, 0⟩ ++ List.replicate 246 7,
      rx_data_head := 255,
      rx_data_tail := 0,
      tail_frame := ⟨2, 0, false, 0, 0⟩ }

/-- An empty ring buffer (head = tail = 0) with an in-flight head
frame for cid 4, used to exercise the empty case of the frame-header
theorem. -/
def c6EmptyState : GSState :=
  { baseState with head_frame := ⟨4, 123, false, 0, 0⟩ }

/-- A nonempty ring buffer wrapped so that head = 250 needs
relocation while the tail sits at index 0: the case where
bufferFrameHeader first drops one byte unconditionally before moving
the head, then ten more once the recomputed free room is zero. -/
def c6ZeroTailState : GSState :=
  { baseState with
      rx_data := List.replicate 256 9,
      rx_data_head := 250,
      rx_data_tail := 0,
      tail_frame := ⟨5, 60, false, 0, 0⟩,
      head_frame := ⟨6, 700, false, 0, 0⟩ }

/-- A nonempty ring buffer (head 20, tail 25) with only 4 free bytes,
so queueing a header record must drop 6 tail bytes of cid 2's frame;
the in-flight head frame is for cid 3. -/
def c6State : GSState :=
  { baseState with
      rx_data := List.replicate 256 7,
      rx_data_head := 20,
      rx_data_tail := 25,
      tail_frame := ⟨2, 50, false, 0, 0⟩,
      head_frame := ⟨3, 500, false, 0, 0⟩ }

/-- C1: response classification of completed synchronous lines.  The
line "0" (byte 48) is GS_SUCCESS with no arguments; "0 foo" is
GS_UNKNOWN_RESPONSE (unexpected argument); "OK" is GS_SUCCESS; "217" is
GS_UNKNOWN_RESPONSE (not a valid 1- or 2-digit code: it parses as code
2 followed by junk that is not introduced by a space); and "3" with a
null connect_cid is GS_UNKNOWN_RESPONSE (code 3, GS_SOCK_FAIL, requires
exactly two argument bytes). -/
theorem C1_response_classification :
    processResponseLine [48] false = (.GS_SUCCESS, none) ∧
    processResponseLine [48, 32, 102, 111, 111] false =
      (.GS_UNKNOWN_RESPONSE, none) ∧
    processResponseLine [79, 75] false = (.GS_SUCCESS, none) ∧
    processResponseLine [50, 49, 55] false = (.GS_UNKNOWN_RESPONSE, none) ∧
    processResponseLine [51] false = (.GS_UNKNOWN_RESPONSE, none) := by
  decide

/-- C5: evaluation of parseIpAddress at the failing input "260" (bytes
50 54 48).  The string contains the single octet 260, which is at least
256, yet the parser accepts it and stores 260 mod 256 = 4: the guard
`(*ip)[i] >= 100 || ((*ip)[i] == 25 && *p > '5')` only catches
256..259 and values whose running prefix reaches 100, so 260..999 slip
through the uint8 octet with wraparound. -/
theorem C5_parseIpAddress_accepts_260 :
    parseIpAddress [50, 54, 48] 3 = some ⟨4, 0, 0, 0⟩ ∧
    parseIpAddress [49, 46, 46, 50] 4 = some ⟨1, 0, 2, 0⟩ := by
  decide

/-- C9 counterexample: a formatted command of 127 bytes (127 times the
byte 65).  The claim says the sent bytes are the command truncated to a
maximum of 127 bytes followed by CR LF, i.e. all 127 bytes would go
out; the code instead sends only 125 command bytes followed by the NUL
terminator that vsnprintf left at buf[125], then CR LF. -/
theorem C9_counterexample :
    (writeCommandBytes (List.replicate 127 65)).1 ≠
      List.replicate 127 65 ++ [13, 10] ∧
    (writeCommandBytes (List.replicate 127 65)).1 =
      List.replicate 125 65 ++ [0, 13, 10] := by
  decide

/-- C9 (amended): the bytes sent by writeCommand are the formatted
command itself when it is at most 125 bytes long, and otherwise its
first 125 bytes followed by a stray NUL byte (truncation to 126 bytes
whose last byte is the formatter's terminator); in both cases CR LF is
appended.  The truncation is logged only when the formatted length
exceeds 126 bytes, and the overflowing bytes are not sent. -/
theorem C9_writeCommand_truncation (cmd : List Nat) :
    writeCommandBytes cmd =
      ((if cmd.length ≤ 125 then cmd else cmd.take 125 ++ [0]) ++ [13, 10],
        decide (126 < cmd.length)) := by
  unfold writeCommandBytes
  by_cases h : cmd.length ≤ 125
  · have h126 : ¬ cmd.length > 126 := by omega
    simp only [if_neg h126, if_pos h]
    have htake : cmd.take 125 = cmd := List.take_of_length_le h
    rw [htake]
    have : cmd.length ≤ cmd.length := le_refl _
    rw [List.take_append_of_le_length (by simp), List.take_of_length_le (le_refl _)]
    simp [Nat.lt_iff_add_one_le]
    omega
  · by_cases h2 : cmd.length > 126
    · simp only [if_pos h2, if_neg h]
      have hlen : (cmd.take 125).length = 125 := by
        simp [List.length_take]
        omega
      have : (cmd.take 125 ++ [0]).take 126 = cmd.take 125 ++ [0] := by
        apply List.take_of_length_le
        simp [hlen]
      rw [this]
      simp
      omega
    · -- cmd.length = 126
      have h126 : cmd.length = 126 := by omega
      simp only [if_neg h2, if_neg h]
      have hlen : (cmd.take 125).length = 125 := by
        simp [List.length_take]
        omega
      have : (cmd.take 125 ++ [0]).take cmd.length = cmd.take 125 ++ [0] := by
        apply List.take_of_length_le
        simp [hlen]
        omega
      rw [this]
      simp
      omega

/-- The cascade step never touches the associated/disassociated event
bits nor the association flag (processDisconnect only edits the NCM
bits). -/
theorem disassocStep_flags (s : GSState) (a : Nat) :
    (disassocStep s a).events.disassociated = s.events.disassociated ∧
    (disassocStep s a).events.associated = s.events.associated ∧
    (disassocStep s a).associated = s.associated := by
  simp only [disassocStep, processDisconnect]
  split_ifs <;> simp [updateConn]

/-- Folding the cascade step preserves the associated/disassociated
event bits and the association flag. -/
theorem disassocFold_flags (l : List Nat) (s : GSState) :
    ((l.foldl disassocStep s).events.disassociated =
      s.events.disassociated) ∧
    ((l.foldl disassocStep s).events.associated = s.events.associated) ∧
    ((l.foldl disassocStep s).associated = s.associated) := by
  induction l generalizing s with
  | nil => exact ⟨rfl, rfl, rfl⟩
  | cons a t ih =>
    have h := disassocStep_flags s a
    have h2 := ih (disassocStep s a)
    simp only [List.foldl_cons]
    exact ⟨h2.1.trans h.1, h2.2.1.trans h.2.1, h2.2.2.trans h.2.2⟩

/-- The cascade step leaves every other cid's record untouched. -/
theorem disassocStep_other (s : GSState) (a cid : Nat) (h : cid ≠ a) :
    (disassocStep s a).connections cid = s.connections cid := by
  simp only [disassocStep, processDisconnect]
  split_ifs <;> simp [updateConn, h]

/-- The cascade step on a connected cid leaves it disconnected with its
sticky error flag set. -/
theorem disassocStep_self (s : GSState) (a : Nat)
    (h : (s.connections a).connected = true) :
    ((disassocStep s a).connections a).connected = false ∧
    ((disassocStep s a).connections a).error = true := by
  simp only [disassocStep, processDisconnect]
  split_ifs <;> simp_all [updateConn]

/-- The cascade step does nothing on a cid that is not connected. -/
theorem disassocStep_not_connected (s : GSState) (a : Nat)
    (h : (s.connections a).connected = false) :
    disassocStep s a = s := by
  unfold disassocStep
  rw [if_neg (by simp [h])]

/-- Once a cid is disconnected, the rest of the cascade never touches
its record again. -/
theorem disassocFold_preserve (l : List Nat) : ∀ (s : GSState) (cid : Nat),
    (s.connections cid).connected = false →
    ((l.foldl disassocStep s).connections cid) = s.connections cid := by
  induction l with
  | nil => intro s cid _; rfl
  | cons a t ih =>
    intro s cid h
    simp only [List.foldl_cons]
    by_cases hac : cid = a
    · subst hac
      rw [disassocStep_not_connected s cid h]
      exact ih s cid h
    · have hother := disassocStep_other s a cid hac
      rw [ih (disassocStep s a) cid (by rw [hother]; exact h), hother]

/-- Every cid in the cascade list that was connected ends the fold
disconnected with its error flag set. -/
theorem disassocFold_main (l : List Nat) : ∀ (s : GSState) (cid : Nat),
    cid ∈ l → (s.connections cid).connected = true →
    ((l.foldl disassocStep s).connections cid).connected = false ∧
    ((l.foldl disassocStep s).connections cid).error = true := by
  induction l with
  | nil => intro s cid hmem; cases hmem
  | cons a t ih =>
    intro s cid hmem h
    simp only [List.foldl_cons]
    by_cases hac : cid = a
    · subst hac
      have hstep := disassocStep_self s cid h
      rw [disassocFold_preserve t (disassocStep s cid) cid hstep.1]
      exact hstep
    · have hmem' : cid ∈ t := by
        cases hmem with
        | head => exact absurd rfl hac
        | tail _ h => exact h
      have hother := disassocStep_other s a cid hac
      exact ih (disassocStep s a) cid hmem' (by rw [hother]; exact h)

/-- C3 counterexample: the associated engine state `c3State` has CIDs 1
and 3 connected, but also a pending (queued, not yet dispatched)
ASSOCIATED event.  Processing a disassociation event does disconnect
both cids with error set, but queues no DISASSOCIATED event at all: the
pending ASSOCIATED flag is cancelled instead.  This contradicts the
claim's universal statement that one DISASSOCIATED event is queued for
every associated engine state. -/
theorem C3_counterexample :
    c3State.associated = true ∧
    (c3State.connections 1).connected = true ∧
    (c3State.connections 3).connected = true ∧
    ((processDisassociation c3State).connections 1).connected = false ∧
    ((processDisassociation c3State).connections 1).error = true ∧
    ((processDisassociation c3State).connections 3).connected = false ∧
    ((processDisassociation c3State).connections 3).error = true ∧
    (processDisassociation c3State).events.disassociated = false := by
  decide

/-- C3 (amended): for every associated engine state with no pending
ASSOCIATED event, processing a disassociation event leaves every
previously-connected CID in 0..=MAX_CID disconnected with its error
flag set to true, and queues exactly one DISASSOCIATED event: the
single DISASSOCIATED bit of the edge-triggered event bitmask is set
(the per-connection cascade goes through processDisconnect, which never
touches that bit), so one poll cycle dispatches exactly one
DISASSOCIATED callback, not one per disconnected connection.  If an
ASSOCIATED event is still pending, it is cancelled instead and no
DISASSOCIATED event is queued. -/
theorem C3_disassociation_cascade (s : GSState)
    (hassoc : s.associated = true)
    (hnopending : s.events.associated = false) :
    (processDisassociation s).events.disassociated = true ∧
    (processDisassociation s).associated = false ∧
    ∀ cid, cid ≤ maxCid → (s.connections cid).connected = true →
      ((processDisassociation s).connections cid).connected = false ∧
      ((processDisassociation s).connections cid).error = true := by
  unfold processDisassociation
  rw [if_neg (by simp [hassoc])]
  rw [if_neg (by simp [hnopending])]
  set s2 : GSState :=
    { { s with events := { s.events with disassociated := true } }
        with associated := false } with hs2
  have hflags := disassocFold_flags (List.range (maxCid + 1)) s2
  refine ⟨hflags.1.trans (by rw [hs2]), hflags.2.2.trans (by rw [hs2]), ?_⟩
  intro cid hcid hconn
  have hmem : cid ∈ List.range (maxCid + 1) := by
    rw [List.mem_range]; omega
  exact disassocFold_main (List.range (maxCid + 1)) s2 cid hmem
    (by rw [hs2]; exact hconn)

/-- C3 witness: the amended cascade theorem applied to a concrete
associated state (CIDs 1 and 3 connected, no pending events). -/
theorem C3_witness :
    ({ c3State with events := ⟨false, false, false, false⟩ }).associated
        = true ∧
    (processDisassociation
        { c3State with events := ⟨false, false, false, false⟩ }
      ).events.disassociated = true :=
  ⟨by decide,
    (C3_disassociation_cascade
      { c3State with events := ⟨false, false, false, false⟩ }
      (by decide) (by decide)).1⟩

/-- C8: same-cycle edge cancellation.  From a state with no pending
association or NCM events: an associate event followed by a
disassociate event before dispatch cancels the pending ASSOCIATED flag
and queues no DISASSOCIATED flag; likewise an NCM connect followed by
an NCM disconnect of the same cid cancels the pending NCM_CONNECTED
flag and queues no NCM_DISCONNECTED flag.  The callbacks (which fire
once per poll cycle from the event bitmask) therefore observe neither
edge of the cancelled pair. -/
theorem C8_same_cycle_cancellation (s : GSState) (cid : Nat)
    (h1 : s.associated = false) (h2 : s.events.associated = false)
    (h3 : s.events.disassociated = false)
    (h4 : s.events.ncm_connected = false)
    (h5 : s.events.ncm_disconnected = false)
    (h6 : (s.connections cid).connected = false) :
    ((processDisassociation (processAssociation s)).events.associated
        = false ∧
      (processDisassociation (processAssociation s)).events.disassociated
        = false) ∧
    ((processDisconnect (processConnect s cid 0 0 0 true) cid
        ).events.ncm_connected = false ∧
      (processDisconnect (processConnect s cid 0 0 0 true) cid
        ).events.ncm_disconnected = false) := by
  constructor
  · have hA : processAssociation s =
        { s with associated := true,
                 events := { s.events with associated := true } } := by
      unfold processAssociation
      rw [if_neg (by simp [h1])]
    rw [hA]
    unfold processDisassociation
    rw [if_neg (by simp)]
    rw [if_pos (by simp)]
    have hflags := disassocFold_flags (List.range (maxCid + 1))
      { { { s with associated := true,
                   events := { s.events with associated := true } } with
            events := { { s.events with associated := true }
              with associated := false } } with associated := false }
    refine ⟨hflags.2.1.trans (by simp [h2]), hflags.1.trans (by simp [h3])⟩
  · have hC : processConnect s cid 0 0 0 true =
        { s with ncm_auto_cid := some cid,
                 events := { s.events with ncm_connected := true },
                 connections := updateConn s.connections cid
                   (fun c => { c with remote_ip := 0, remote_port := 0,
                                      local_port := 0, error := false,
                                      connected := true }) } := by
      unfold processConnect
      rw [if_neg (by simp [h6])]
      simp
    rw [hC]
    simp only [processDisconnect]
    rw [if_neg (by simp [updateConn])]
    rw [if_pos (by simp)]
    rw [if_pos (by simp)]
    simp [h5]

/-- C8 witness: the cancellation theorem applied to the freshly
initialized engine state and cid 1. -/
theorem C8_witness :
    baseState.associated = false ∧
    (processDisassociation (processAssociation baseState)
      ).events.disassociated = false :=
  ⟨by decide,
    ((C8_same_cycle_cancellation baseState 1 (by decide) (by decide)
      (by decide) (by decide) (by decide) (by decide)).1).2⟩

/-- C10: a completed <ESC>A async message is rejected, with the whole
engine state left unchanged (connection table, event flags and
association state included), whenever the header subtype is out of
range (above GS_ASYNC_MAX = 0xC), the payload is empty, the first
payload byte does not parse as a single hex digit equal to the header
subtype, or a nonempty argument part is not introduced by a single
space (byte 32). -/
theorem C10_processAsync_rejects (s : GSState)
    (h : s.rx_async_subtype > 12 ∨ s.rx_async = [] ∨
      (∀ v, parseNumber8 s.rx_async 1 16 = some v →
        v ≠ s.rx_async_subtype) ∨
      (s.rx_async.length - 1 ≠ 0 ∧ (s.rx_async.drop 1).headD 0 ≠ 32)) :
    processAsync s = (false, s) := by
  unfold processAsync
  by_cases hb : s.rx_async_subtype > 12
  · rw [if_pos hb]
  · rw [if_neg hb]
    by_cases hc : s.rx_async.length < 1
    · rw [if_pos hc]
    · rw [if_neg hc]
      cases hp : parseNumber8 s.rx_async 1 16 with
      | none => rfl
      | some v =>
        dsimp only
        by_cases hv : v ≠ s.rx_async_subtype
        · rw [if_pos hv]
        · rw [if_neg hv]
          push_neg at hv
          rcases h with h | h | h | h
          · exact absurd h hb
          · exact absurd (by simp [h]) hc
          · exact absurd hv (h v hp)
          · rw [if_pos h]

/-- C10 witness: the rejection theorem applied to a concrete state
whose buffered async message has subtype 3 in the header but subtype 2
as its first payload byte (byte 50). -/
theorem C10_witness :
    (∀ v, parseNumber8 c10State.rx_async 1 16 = some v →
        v ≠ c10State.rx_async_subtype) ∧
    processAsync c10State = (false, c10State) := by
  have hmis : ∀ v, parseNumber8 c10State.rx_async 1 16 = some v →
      v ≠ c10State.rx_async_subtype := by
    intro v hv
    have hv2 : v = 2 := by
      have h50 : parseNumber8 c10State.rx_async 1 16 = some 2 := by decide
      rw [h50] at hv
      exact (Option.some_inj.mp hv).symm
    have hsub : c10State.rx_async_subtype = 3 := by decide
    omega
  exact ⟨hmis, C10_processAsync_rejects _ (Or.inr (Or.inr (Or.inl hmis)))⟩

/-- Setting the sticky error flag twice is the same as setting it
once. -/
theorem updateConn_error_idem (f : Nat → Connection) (cid : Nat) :
    updateConn (updateConn f cid (fun c => { c with error := true })) cid
      (fun c => { c with error := true }) =
    updateConn f cid (fun c => { c with error := true }) := by
  funext i
  unfold updateConn
  split_ifs <;> rfl

/-- The 16-bit decrement is an ordinary decrement on nonzero in-range
values. -/
theorem dec16_pos (n : Nat) (h : n ≠ 0) (h2 : n < 65536) :
    dec16 n = n - 1 := by
  unfold dec16
  omega

/-- One round of dropData on a state whose tail frame still has
payload and whose ring buffer is nonempty behaves as `dropOne`: the
inner readData takes the buffered path, so the tail advances by one,
the tail frame shrinks by one and the owning connection is marked. -/
theorem dropData_one_step (f : Nat) (s : GSState) (num : Nat)
    (hlen : ¬ s.tail_frame.length = 0) (hlen2 : s.tail_frame.length < 65536)
    (hne : s.rx_data_tail ≠ s.rx_data_head) :
    dropData (f + 3) s (num + 1) = dropData (f + 2) (dropOne s) num := by
  show dropData ((f + 2) + 1) s (num + 1) = _
  rw [dropData]
  show dropData (f + 2) _ num = _
  congr 1
  show (match (readDataCid ((f + 1) + 1) s).2 with
        | some bc =>
          let conns := updateConn (readDataCid ((f + 1) + 1) s).1.connections
            bc.2 (fun c => { c with error := true })
          { (readDataCid ((f + 1) + 1) s).1 with connections := conns }
        | none => (readDataCid ((f + 1) + 1) s).1) = dropOne s
  rw [readDataCid]
  show (match
        (let gf := getFrameHeader (f + 1) s none;
         if gf.2.length = 0 then (gf.1, none)
         else
           match getData gf.1 with
           | (s2, some b) => (s2, some (b, s2.tail_frame.cid))
           | (s2, none) => (s2, none)).2 with
      | some bc => _
      | none => _) = dropOne s
  have hgf : getFrameHeader (f + 1) s none = (s, s.tail_frame) := by
    show getFrameHeader (f + 1) s none = (s, s.tail_frame)
    rw [show f + 1 = f + 1 from rfl]
    rw [getFrameHeader]
    simp only [if_neg hlen]
    simp
  rw [hgf]
  simp only [if_neg hlen]
  have hgd : getData s =
      ({ s with rx_data_tail := (s.rx_data_tail + 1) % rxDataSize,
                tail_frame :=
                  { s.tail_frame with
                      length := dec16 s.tail_frame.length } },
        some (s.rx_data.getD s.rx_data_tail 0)) := by
    unfold getData
    rw [if_pos hne]
  rw [hgd]
  simp only []
  rw [dec16_pos _ hlen hlen2]
  rfl

/-- Running dropData `k` times on a state whose tail frame has at
least `k` bytes of payload, and whose tail stays clear of the head for
`k` steps, is `dropCount k`. -/
theorem dropData_run (k : Nat) : ∀ (f : Nat) (s : GSState),
    (∀ j, j < k → (s.rx_data_tail + j) % rxDataSize ≠ s.rx_data_head) →
    k ≤ s.tail_frame.length → s.tail_frame.length < 65536 →
    s.rx_data_tail < rxDataSize →
    dropData (f + k + 2) s k = dropCount k s := by
  induction k with
  | zero =>
    intro f s _ _ _ _
    show dropData ((f + 1) + 1) s 0 = _
    rw [dropData, dropCount]
    simp
  | succ k ih =>
    intro f s hsep hk hlt htail
    have hlen : ¬ s.tail_frame.length = 0 := by omega
    have hne : s.rx_data_tail ≠ s.rx_data_head := by
      have := hsep 0 (by omega)
      simpa [Nat.mod_eq_of_lt htail] using this
    have e1 : f + (k + 1) + 2 = (f + k) + 3 := by omega
    rw [e1, dropData_one_step (f + k) s k hlen hlt hne]
    rw [ih f (dropOne s) ?hsep ?hk ?hlt ?htail]
    case hsep =>
      intro j hj
      show ((s.rx_data_tail + 1) % rxDataSize + j) % rxDataSize ≠
        s.rx_data_head
      have := hsep (j + 1) (by omega)
      have hmod : ((s.rx_data_tail + 1) % rxDataSize + j) % rxDataSize =
          (s.rx_data_tail + (j + 1)) % rxDataSize := by
        conv_rhs => rw [show s.rx_data_tail + (j + 1) =
          (s.rx_data_tail + 1) + j by omega]
        rw [Nat.mod_add_mod]
      rw [hmod]
      exact this
    case hk =>
      show k ≤ s.tail_frame.length - 1
      omega
    case hlt =>
      show s.tail_frame.length - 1 < 65536
      omega
    case htail =>
      show (s.rx_data_tail + 1) % rxDataSize < rxDataSize
      exact Nat.mod_lt _ (by unfold rxDataSize; omega)
    show dropCount k (dropOne s) = dropCount (k + 1) s
    have hlen3 : s.tail_frame.length - 1 - k =
        s.tail_frame.length - (k + 1) := by omega
    have htail2 : ((s.rx_data_tail + 1) % rxDataSize + k) % rxDataSize =
        (s.rx_data_tail + (k + 1)) % rxDataSize := by
      conv_rhs => rw [show s.rx_data_tail + (k + 1) =
        (s.rx_data_tail + 1) + k by omega]
      rw [Nat.mod_add_mod]
    by_cases hk0 : k = 0
    · subst hk0
      simp [dropCount, dropOne]
    · unfold dropCount dropOne
      rw [if_neg hk0, if_neg (by omega : ¬ k + 1 = 0)]
      simp only []
      rw [htail2, hlen3, updateConn_error_idem]

/-- Dropping zero bytes is a no-op at any fuel. -/
theorem dropData_zero (fuel : Nat) (s : GSState) : dropData fuel s 0 = s := by
  cases fuel with
  | zero => rfl
  | succ f => rfl

/-- With no pending transport bytes, readRaw reports -1 and leaves
the state untouched (in both the latched and the healthy case). -/
theorem readRaw_empty (s : GSState) (ht : s.transport = []) :
    readRaw s = (s, none) := by
  unfold readRaw
  rw [ht]
  split <;> rfl

/-- With an empty transport the frame-polling loop cannot make
progress: the state it returns is the state it started from. -/
theorem pollFrame_fst (fuel : Nat) (s : GSState) (ht : s.transport = []) :
    (pollFrame fuel s).1 = s := by
  cases fuel with
  | zero => rfl
  | succ f =>
    rw [pollFrame]
    split
    · rfl
    · rw [readRaw_empty s ht]
      have hpi : processIncoming f s none = (false, s) := by
        cases f <;> rfl
      show (if (processIncoming f s none).1 = true
          then pollFrame f (processIncoming f s none).2
          else ((processIncoming f s none).2, false)).1 = s
      rw [hpi]
      rfl

/-- With an empty transport, fetching a frame header may dequeue a
record (changing the tail bookkeeping) but never touches the buffer
contents, the head cursor or the transport. -/
theorem getFrameHeader_preserves (fuel : Nat) (s : GSState)
    (cid : Option Nat) (ht : s.transport = []) :
    (getFrameHeader fuel s cid).1.rx_data = s.rx_data ∧
    (getFrameHeader fuel s cid).1.rx_data_head = s.rx_data_head ∧
    (getFrameHeader fuel s cid).1.transport = [] := by
  cases fuel with
  | zero => exact ⟨rfl, rfl, ht⟩
  | succ f =>
    rw [getFrameHeader]
    by_cases h1 : s.tail_frame.length = 0
    · by_cases h2 : s.rx_data_tail ≠ s.rx_data_head
      · simp only [if_pos h1, if_pos h2]
        split
        · exact ⟨rfl, rfl, ht⟩
        · split
          · exact ⟨rfl, rfl, ht⟩
          · exact ⟨rfl, rfl, ht⟩
      · have hp := pollFrame_fst f s ht
        simp only [if_pos h1, if_neg h2]
        split
        · rw [hp]; exact ⟨rfl, rfl, ht⟩
        · split
          · rw [hp]; exact ⟨rfl, rfl, ht⟩
          · rw [hp]; exact ⟨rfl, rfl, ht⟩
    · simp only [if_neg h1]
      split
      · exact ⟨rfl, rfl, ht⟩
      · split
        · exact ⟨rfl, rfl, ht⟩
        · exact ⟨rfl, rfl, ht⟩

/-- With an empty transport, popping one data byte preserves the
buffer contents, the head cursor and the transport. -/
theorem getData_preserves (s : GSState) (ht : s.transport = []) :
    (getData s).1.rx_data = s.rx_data ∧
    (getData s).1.rx_data_head = s.rx_data_head ∧
    (getData s).1.transport = [] := by
  unfold getData
  by_cases hne : s.rx_data_tail ≠ s.rx_data_head
  · rw [if_pos hne]
    exact ⟨rfl, rfl, ht⟩
  · rw [if_neg hne, readRaw_empty s ht]
    exact ⟨rfl, rfl, ht⟩

/-- With an empty transport, one readData step preserves the buffer
contents, the head cursor and the transport, whichever path it takes
(buffered payload, queued header dequeue, or a failed read). -/
theorem readDataCid_preserves (fuel : Nat) (s : GSState)
    (ht : s.transport = []) :
    (readDataCid fuel s).1.rx_data = s.rx_data ∧
    (readDataCid fuel s).1.rx_data_head = s.rx_data_head ∧
    (readDataCid fuel s).1.transport = [] := by
  cases fuel with
  | zero => exact ⟨rfl, rfl, ht⟩
  | succ f =>
    obtain ⟨g1, g2, g3⟩ := getFrameHeader_preserves f s none ht
    obtain ⟨d1, d2, d3⟩ := getData_preserves (getFrameHeader f s none).1 g3
    rw [readDataCid]
    split
    · exact ⟨g1, g2, g3⟩
    · split
      · rename_i s2 b heq
        rw [heq] at d1 d2 d3
        exact ⟨d1.trans g1, d2.trans g2, d3⟩
      · rename_i s2 heq
        rw [heq] at d1 d2 d3
        exact ⟨d1.trans g1, d2.trans g2, d3⟩

/-- With an empty transport, dropping any number of bytes never
touches the buffer contents, the head cursor or the transport,
whatever path each iteration takes. -/
theorem dropData_preserves (fuel : Nat) : ∀ (k : Nat) (s : GSState),
    s.transport = [] →
    (dropData fuel s k).rx_data = s.rx_data ∧
    (dropData fuel s k).rx_data_head = s.rx_data_head ∧
    (dropData fuel s k).transport = [] := by
  induction fuel with
  | zero =>
    intro k s ht
    exact ⟨rfl, rfl, ht⟩
  | succ f ih =>
    intro k s ht
    cases k with
    | zero => exact ⟨rfl, rfl, ht⟩
    | succ n =>
      obtain ⟨r1, r2, r3⟩ := readDataCid_preserves f s ht
      rw [dropData]
      simp only []
      cases hr : (readDataCid f s).2 with
      | none =>
        obtain ⟨i1, i2, i3⟩ := ih n (readDataCid f s).1 r3
        exact ⟨i1.trans r1, i2.trans r2, i3⟩
      | some bc =>
        obtain ⟨i1, i2, i3⟩ := ih n
          { (readDataCid f s).1 with
              connections := updateConn (readDataCid f s).1.connections bc.2
                (fun c => { c with error := true }) } r3
        exact ⟨i1.trans r1, i2.trans r2, i3⟩

/-- One round of dropData on a state whose tail frame is exhausted and
whose ring buffer is nonempty first dequeues the queued header record
at the tail (loadFrameHeader) and then drops the first payload byte of
that newly loaded frame, marking its connection. -/
theorem dropData_one_step_load (f : Nat) (s : GSState) (num : Nat)
    (hlen0 : s.tail_frame.length = 0)
    (hne : s.rx_data_tail ≠ s.rx_data_head)
    (hq : ¬ (loadFrameHeader s).tail_frame.length = 0)
    (hqlt : (loadFrameHeader s).tail_frame.length < 65536)
    (hne2 : (loadFrameHeader s).rx_data_tail ≠
      (loadFrameHeader s).rx_data_head) :
    dropData (f + 3) s (num + 1) =
      dropData (f + 2) (dropOne (loadFrameHeader s)) num := by
  show dropData ((f + 2) + 1) s (num + 1) = _
  rw [dropData]
  show dropData (f + 2) _ num = _
  congr 1
  show (match (readDataCid ((f + 1) + 1) s).2 with
        | some bc =>
          let conns := updateConn (readDataCid ((f + 1) + 1) s).1.connections
            bc.2 (fun c => { c with error := true })
          { (readDataCid ((f + 1) + 1) s).1 with connections := conns }
        | none => (readDataCid ((f + 1) + 1) s).1) =
      dropOne (loadFrameHeader s)
  rw [readDataCid]
  show (match
        (let gf := getFrameHeader (f + 1) s none;
         if gf.2.length = 0 then (gf.1, none)
         else
           match getData gf.1 with
           | (s2, some b) => (s2, some (b, s2.tail_frame.cid))
           | (s2, none) => (s2, none)).2 with
      | some bc => _
      | none => _) = dropOne (loadFrameHeader s)
  have hgf : getFrameHeader (f + 1) s none =
      (loadFrameHeader s, (loadFrameHeader s).tail_frame) := by
    rw [getFrameHeader]
    simp only [if_pos hlen0, if_pos hne]
    simp
  rw [hgf]
  simp only [if_neg hq]
  have hgd : getData (loadFrameHeader s) =
      ({ loadFrameHeader s with
            rx_data_tail :=
              ((loadFrameHeader s).rx_data_tail + 1) % rxDataSize,
            tail_frame :=
              { (loadFrameHeader s).tail_frame with
                  length := dec16 (loadFrameHeader s).tail_frame.length } },
        some ((loadFrameHeader s).rx_data.getD
          (loadFrameHeader s).rx_data_tail 0)) := by
    unfold getData
    rw [if_pos hne2]
  rw [hgd]
  simp only []
  rw [dec16_pos _ hq hqlt]
  rfl

/-- C2 counterexample: a full ring buffer (next(head) = tail) whose
tail frame is exhausted while a queued header record for cid 4 sits
serialized at the tail.  Enqueueing a byte advances the tail by
frameSize + 1 = 11 slots, not one, and the sticky error flag lands on
connection 4 (the newly dequeued frame's owner), not on connection 2
(the owner of the old, exhausted tail frame) - refuting the claim's
"tail advances by one" and "the connection that owned the dropped
byte" on this reachable full-buffer state. -/
theorem C2_counterexample :
    (c2LoadState.rx_data_head + 1) % rxDataSize = c2LoadState.rx_data_tail ∧
    c2LoadState.tail_frame.cid = 2 ∧
    (bufferIncomingData 4 c2LoadState 99).rx_data_tail = frameSize + 1 ∧
    (bufferIncomingData 4 c2LoadState 99).rx_data_tail ≠
      (c2LoadState.rx_data_tail + 1) % rxDataSize ∧
    ((bufferIncomingData 4 c2LoadState 99).connections 4).error = true ∧
    ((bufferIncomingData 4 c2LoadState 99).connections 2).error = false := by
  decide

/-- C2 (amended): for every call of the enqueue-byte operation on a
full ring buffer (next(head) = tail), exactly one payload byte is
dropped before the new byte is stored at the old head and the head
advanced, so the occupancy never exceeds the capacity.  When the tail
frame still has payload, the dropped byte is the oldest buffered byte:
the tail advances by one, the tail frame logically shrinks by one, the
connection owning the dropped byte gets its sticky error flag, and the
occupancy stays at capacity - 1.  When the tail frame is exhausted,
the queued header record at the tail is dequeued first
(loadFrameHeader) and the dropped byte is the first payload byte of
that next frame: the tail ends one past the dequeued record, the newly
loaded frame shrinks by one, its connection - not the old tail
frame's - is marked, and the occupancy strictly decreases. -/
theorem C2_enqueueByte_full (fuel : Nat) (s : GSState) (c : Nat)
    (hwf : s.rx_data.length = rxDataSize)
    (hhead : s.rx_data_head < rxDataSize)
    (htail : s.rx_data_tail < rxDataSize)
    (hfull : (s.rx_data_head + 1) % rxDataSize = s.rx_data_tail) :
    (0 < s.tail_frame.length → s.tail_frame.length < 65536 →
      (bufferIncomingData (fuel + 4) s c).rx_data_tail =
          (s.rx_data_tail + 1) % rxDataSize ∧
      (bufferIncomingData (fuel + 4) s c).tail_frame.length =
          s.tail_frame.length - 1 ∧
      ((bufferIncomingData (fuel + 4) s c).connections
          s.tail_frame.cid).error = true ∧
      (bufferIncomingData (fuel + 4) s c).rx_data.getD s.rx_data_head 0 = c ∧
      (bufferIncomingData (fuel + 4) s c).rx_data_head =
          (s.rx_data_head + 1) % rxDataSize ∧
      rxOccupancy (bufferIncomingData (fuel + 4) s c) = rxOccupancy s ∧
      rxOccupancy s = rxDataSize - 1) ∧
    (s.tail_frame.length = 0 →
      0 < (loadFrameHeader s).tail_frame.length →
      (loadFrameHeader s).tail_frame.length < 65536 →
      (bufferIncomingData (fuel + 4) s c).rx_data_tail =
          ((loadFrameHeader s).rx_data_tail + 1) % rxDataSize ∧
      (bufferIncomingData (fuel + 4) s c).tail_frame.cid =
          (loadFrameHeader s).tail_frame.cid ∧
      (bufferIncomingData (fuel + 4) s c).tail_frame.length =
          (loadFrameHeader s).tail_frame.length - 1 ∧
      ((bufferIncomingData (fuel + 4) s c).connections
          (loadFrameHeader s).tail_frame.cid).error = true ∧
      (bufferIncomingData (fuel + 4) s c).rx_data.getD s.rx_data_head 0 = c ∧
      (bufferIncomingData (fuel + 4) s c).rx_data_head =
          (s.rx_data_head + 1) % rxDataSize ∧
      rxOccupancy (bufferIncomingData (fuel + 4) s c) < rxOccupancy s) := by
  constructor
  · intro hlen hlen2
    have hdc : dropCount 1 s =
        { s with rx_data_tail := (s.rx_data_tail + 1) % rxDataSize,
                 tail_frame :=
                   { s.tail_frame with length := s.tail_frame.length - 1 },
                 connections := updateConn s.connections s.tail_frame.cid
                   (fun c2 => { c2 with error := true }) } := by
      unfold dropCount
      rw [if_neg (by omega)]
    have hstep : bufferIncomingData (fuel + 4) s c =
        { dropCount 1 s with
            rx_data := (dropCount 1 s).rx_data.set
              (dropCount 1 s).rx_data_head c,
            rx_data_head := (s.rx_data_head + 1) % rxDataSize } := by
      show bufferIncomingData ((fuel + 3) + 1) s c = _
      rw [bufferIncomingData]
      simp only [if_pos hfull]
      rw [show fuel + 3 = fuel + 1 + 2 by omega]
      rw [dropData_run 1 fuel s ?hsep (by omega) hlen2 htail]
      case hsep =>
        intro j hj
        have hj0 : j = 0 := by omega
        subst hj0
        rw [Nat.add_zero, Nat.mod_eq_of_lt htail]
        intro hEq
        rw [← hEq] at hfull
        unfold rxDataSize at hfull htail
        omega
    rw [hstep, hdc]
    refine ⟨rfl, rfl, ?_, ?_, rfl, ?_, ?_⟩
    · simp [updateConn]
    · have hh : s.rx_data_head < s.rx_data.length := by rw [hwf]; exact hhead
      simp only []
      rw [List.getD_eq_getElem?_getD, List.getElem?_set_eq_of_lt _ hh]
      rfl
    · unfold rxOccupancy rxDataSize
      simp only []
      unfold rxDataSize at hfull htail hhead
      omega
    · unfold rxOccupancy rxDataSize
      unfold rxDataSize at hfull htail hhead
      omega
  · intro hlen0 hq hqlt
    have hne : s.rx_data_tail ≠ s.rx_data_head := by
      unfold rxDataSize at hfull htail hhead
      omega
    have hq' : ¬ (loadFrameHeader s).tail_frame.length = 0 := by omega
    have hloadtail : (loadFrameHeader s).rx_data_tail =
        ((if rxDataSize - s.rx_data_tail < frameSize then 0
          else s.rx_data_tail) + frameSize) % rxDataSize := rfl
    have hne2 : (loadFrameHeader s).rx_data_tail ≠
        (loadFrameHeader s).rx_data_head := by
      show (loadFrameHeader s).rx_data_tail ≠ s.rx_data_head
      rw [hloadtail]
      unfold rxDataSize at hfull htail hhead
      unfold rxDataSize frameSize
      split <;> omega
    have hstep : bufferIncomingData (fuel + 4) s c =
        { dropOne (loadFrameHeader s) with
            rx_data := (dropOne (loadFrameHeader s)).rx_data.set
              (dropOne (loadFrameHeader s)).rx_data_head c,
            rx_data_head := (s.rx_data_head + 1) % rxDataSize } := by
      show bufferIncomingData ((fuel + 3) + 1) s c = _
      rw [bufferIncomingData]
      simp only [if_pos hfull]
      have hd1 : dropData (fuel + 3) s 1 =
          dropOne (loadFrameHeader s) := by
        show dropData (fuel + 3) s (0 + 1) = _
        rw [dropData_one_step_load fuel s 0 hlen0 hne hq' hqlt hne2]
        exact dropData_zero (fuel + 2) _
      rw [hd1]
    have hocc : rxOccupancy
        { dropOne (loadFrameHeader s) with
            rx_data := (dropOne (loadFrameHeader s)).rx_data.set
              (dropOne (loadFrameHeader s)).rx_data_head c,
            rx_data_head := (s.rx_data_head + 1) % rxDataSize } <
        rxOccupancy s := by
      unfold rxOccupancy
      show ((s.rx_data_head + 1) % rxDataSize + rxDataSize -
          ((loadFrameHeader s).rx_data_tail + 1) % rxDataSize) % rxDataSize <
        (s.rx_data_head + rxDataSize - s.rx_data_tail) % rxDataSize
      rw [hloadtail]
      unfold rxDataSize at hfull htail hhead
      unfold rxDataSize frameSize
      split <;> omega
    rw [hstep]
    refine ⟨rfl, rfl, rfl, ?_, ?_, rfl, hocc⟩
    · simp [dropOne, updateConn]
    · have hh : s.rx_data_head < s.rx_data.length := by rw [hwf]; exact hhead
      show (s.rx_data.set s.rx_data_head c).getD s.rx_data_head 0 = c
      rw [List.getD_eq_getElem?_getD, List.getElem?_set_eq_of_lt _ hh]
      rfl

/-- C2 witness: the enqueue-on-full theorem applied to two concrete
full ring buffers: one whose tail frame (cid 2) spans the entire
occupancy, and one whose tail frame is exhausted with a queued header
record at the tail. -/
theorem C2_witness :
    ((c2State.rx_data_head + 1) % rxDataSize = c2State.rx_data_tail ∧
      0 < c2State.tail_frame.length) ∧
    ((bufferIncomingData 4 c2State 99).connections 2).error = true ∧
    ((c2LoadState.rx_data_head + 1) % rxDataSize = c2LoadState.rx_data_tail ∧
      c2LoadState.tail_frame.length = 0) ∧
    (bufferIncomingData 4 c2LoadState 99).rx_data_tail =
      ((loadFrameHeader c2LoadState).rx_data_tail + 1) % rxDataSize :=
  ⟨⟨by decide, by decide⟩,
    ((C2_enqueueByte_full 0 c2State 99 (by decide) (by decide) (by decide)
      (by decide)).1 (by decide) (by decide)).2.2.1,
    ⟨by decide, by decide⟩,
    ((C2_enqueueByte_full 0 c2LoadState 99 (by decide) (by decide)
      (by decide) (by decide)).2 (by decide) (by decide) (by decide)).1⟩

/-- writeBytes preserves the buffer length. -/
theorem writeBytes_length : ∀ (bs l : List Nat) (p : Nat),
    (writeBytes l p bs).length = l.length := by
  intro bs
  induction bs with
  | nil => intro l p; rfl
  | cons b bs ih =>
    intro l p
    show (writeBytes (l.set p b) (p + 1) bs).length = l.length
    rw [ih, List.length_set]

/-- writeBytes leaves all positions below the write position
untouched. -/
theorem writeBytes_getElem_lt : ∀ (bs l : List Nat) (p i : Nat), i < p →
    (writeBytes l p bs)[i]? = l[i]? := by
  intro bs
  induction bs with
  | nil => intro l p i _; rfl
  | cons b bs ih =>
    intro l p i h
    show (writeBytes (l.set p b) (p + 1) bs)[i]? = l[i]?
    rw [ih _ _ _ (by omega), List.getElem?_set_ne (by omega)]

/-- The block written by writeBytes can be read back verbatim when it
fits inside the buffer. -/
theorem writeBytes_spec : ∀ (bs l : List Nat) (p : Nat),
    p + bs.length ≤ l.length →
    ((writeBytes l p bs).drop p).take bs.length = bs := by
  intro bs
  induction bs with
  | nil => intro l p _; simp
  | cons b bs ih =>
    intro l p h
    show ((writeBytes (l.set p b) (p + 1) bs).drop p).take (bs.length + 1) =
      b :: bs
    have hp : p < (writeBytes (l.set p b) (p + 1) bs).length := by
      rw [writeBytes_length, List.length_set]
      simp only [List.length_cons] at h
      omega
    rw [List.drop_eq_getElem_cons hp, List.take_succ_cons]
    have hval : (writeBytes (l.set p b) (p + 1) bs)[p]? = some b := by
      rw [writeBytes_getElem_lt _ _ _ _ (by omega)]
      exact List.getElem?_set_eq_of_lt b
        (by simp only [List.length_cons] at h; omega)
    rw [List.getElem?_eq_getElem hp] at hval
    rw [Option.some_inj.mp hval]
    have hrest : ((writeBytes (l.set p b) (p + 1) bs).drop (p + 1)).take
        bs.length = bs := by
      apply ih
      rw [List.length_set]
      simp only [List.length_cons] at h
      omega
    rw [hrest]

/-- dropCount does not move the head cursor. -/
theorem dropCount_head (k : Nat) (s : GSState) :
    (dropCount k s).rx_data_head = s.rx_data_head := by
  unfold dropCount
  split <;> rfl

/-- dropCount does not touch the buffer contents. -/
theorem dropCount_data (k : Nat) (s : GSState) :
    (dropCount k s).rx_data = s.rx_data := by
  unfold dropCount
  split <;> rfl

/-- The tail cursor after a nonzero dropCount. -/
theorem dropCount_tail (k : Nat) (s : GSState) (hk : k ≠ 0) :
    (dropCount k s).rx_data_tail = (s.rx_data_tail + k) % rxDataSize := by
  unfold dropCount
  rw [if_neg hk]

/-- The tail frame length after a nonzero dropCount. -/
theorem dropCount_len (k : Nat) (s : GSState) (hk : k ≠ 0) :
    (dropCount k s).tail_frame.length = s.tail_frame.length - k := by
  unfold dropCount
  rw [if_neg hk]

/-- dropCount never changes the tail frame's cid. -/
theorem dropCount_cid (k : Nat) (s : GSState) :
    (dropCount k s).tail_frame.cid = s.tail_frame.cid := by
  unfold dropCount
  split <;> rfl

/-- A nonzero dropCount marks the tail connection's sticky error
flag. -/
theorem dropCount_conn (k : Nat) (s : GSState) (hk : k ≠ 0) :
    ((dropCount k s).connections s.tail_frame.cid).error = true := by
  unfold dropCount
  rw [if_neg hk]
  simp [updateConn]

/-- The serialized frame record occupies exactly frameSize bytes. -/
theorem encodeFrame_length (f : RXFrame) :
    (encodeFrame f).length = frameSize := rfl

/-- The nonempty branch of bufferFrameHeader is the serialization of
the record at the head of the intermediate drop state. -/
theorem bufferFrameHeader_eq (fuel : Nat) (s : GSState) (frame : RXFrame)
    (hne : ¬ s.rx_data_head = s.rx_data_tail) :
    bufferFrameHeader (fuel + 1) s frame =
      { bfhDropState fuel s with
          rx_data := writeBytes (bfhDropState fuel s).rx_data
            (bfhDropState fuel s).rx_data_head (encodeFrame frame),
          rx_data_head := ((bfhDropState fuel s).rx_data_head + frameSize) %
            rxDataSize } := by
  rw [bufferFrameHeader, if_neg hne]
  rfl

/-- With an idle transport the intermediate drop state of
bufferFrameHeader keeps the buffer contents and parks the head at
`startPos`, whatever drop path is taken. -/
theorem bfhDropState_preserves (fuel : Nat) (s : GSState)
    (ht : s.transport = []) :
    (bfhDropState fuel s).rx_data = s.rx_data ∧
    (bfhDropState fuel s).rx_data_head = startPos s := by
  unfold bfhDropState
  by_cases hrel : rxDataSize - frameSize < s.rx_data_head
  · have hstart : startPos s = 0 := by unfold startPos; rw [if_pos hrel]
    simp only [gt_iff_lt, if_pos hrel, Nat.sub_self, dropData_zero,
      ite_self]
    rw [hstart]
    by_cases hz : s.rx_data_tail = 0
    · rw [if_pos hz]
      obtain ⟨b1, b2, b3⟩ := dropData_preserves fuel 1 s ht
      split
      · obtain ⟨c1, c2, c3⟩ := dropData_preserves fuel _
          { dropData fuel s 1 with rx_data_head := 0 } b3
        exact ⟨c1.trans b1, c2⟩
      · exact ⟨b1, rfl⟩
    · rw [if_neg hz]
      split
      · obtain ⟨c1, c2, c3⟩ := dropData_preserves fuel _
          { s with rx_data_head := 0 } ht
        exact ⟨c1, c2⟩
      · exact ⟨rfl, rfl⟩
  · have hstart : startPos s = s.rx_data_head := by
      unfold startPos; rw [if_neg hrel]
    simp only [gt_iff_lt, if_neg hrel]
    rw [hstart]
    split
    · obtain ⟨c1, c2, c3⟩ := dropData_preserves fuel _ s ht
      exact ⟨c1, c2⟩
    · exact ⟨rfl, rfl⟩

set_option maxHeartbeats 1000000 in
/-- On a nonempty buffer with an idle transport the frame-header
enqueue always ends with the head just past `startPos` and the record
readable back verbatim there, regardless of which drop path the call
takes: the intervening dropData calls never touch the buffer contents
or the head cursor. -/
theorem bufferFrameHeader_head_data (fuel : Nat) (s : GSState)
    (frame : RXFrame) (ht : s.transport = [])
    (hne : ¬ s.rx_data_head = s.rx_data_tail)
    (hwf : s.rx_data.length = rxDataSize) :
    (bufferFrameHeader (fuel + 1) s frame).rx_data_head =
      (startPos s + frameSize) % rxDataSize ∧
    ((bufferFrameHeader (fuel + 1) s frame).rx_data.drop
        (startPos s)).take frameSize = encodeFrame frame := by
  obtain ⟨p1, p2⟩ := bfhDropState_preserves fuel s ht
  rw [bufferFrameHeader_eq fuel s frame hne]
  have hsp : startPos s + frameSize ≤ rxDataSize := by
    unfold startPos frameSize rxDataSize
    split <;> omega
  constructor
  · show ((bfhDropState fuel s).rx_data_head + frameSize) % rxDataSize = _
    rw [p2]
  · show ((writeBytes (bfhDropState fuel s).rx_data
        (bfhDropState fuel s).rx_data_head (encodeFrame frame)).drop
        (startPos s)).take frameSize = encodeFrame frame
    rw [p1, p2, ← encodeFrame_length frame]
    apply writeBytes_spec
    rw [hwf, encodeFrame_length]
    exact hsp

/-- C6: the enqueue-frame-header operation.  For a call with the
in-flight head frame and an idle transport (the only way the source
calls it): (1) if the ring buffer is empty the frame becomes
tail_frame directly and nothing else changes (no buffer space
consumed); (2) on a nonempty buffer the header record is always
serialized verbatim at `startPos s` (which is 0, the relocated head,
exactly when the record would straddle the wrap point, and the head
itself otherwise) with the head ending just past it, whatever drop
path is taken; (3) when the tail frame has at least a record's worth
of payload and the tail is not at index 0 during a relocation, exactly
`dropsNeeded s` bytes - the shortfall of the free room, zero when the
room suffices - are dropped from the tail, marking the owning
connection's error flag, and with enough room the tail and connection
table are untouched; (4) in the relocation case with the tail at
index 0 the source first drops one byte unconditionally (so that
head = tail = 0 cannot masquerade as an empty buffer) and then a full
record's worth once the recomputed free room is zero: frameSize + 1
bytes leave the tail and the owning connection is marked.  The
source's relocation line `dropData(rx_data_tail - rx_data_tail)` (a
no-op, line 1150) is embedded as written. -/
theorem C6_bufferFrameHeader (fuel : Nat) (s : GSState) (frame : RXFrame)
    (hframe : frame = s.head_frame)
    (hwf : s.rx_data.length = rxDataSize)
    (hhead : s.rx_data_head < rxDataSize)
    (htail : s.rx_data_tail < rxDataSize)
    (htr : s.transport = []) :
    (s.rx_data_head = s.rx_data_tail →
      bufferFrameHeader (fuel + 14) s frame =
        { s with tail_frame := s.head_frame }) ∧
    (s.rx_data_head ≠ s.rx_data_tail →
      (bufferFrameHeader (fuel + 14) s frame).rx_data_head =
          (startPos s + frameSize) % rxDataSize ∧
      ((bufferFrameHeader (fuel + 14) s frame).rx_data.drop
          (startPos s)).take frameSize = encodeFrame frame) ∧
    (s.rx_data_head ≠ s.rx_data_tail →
      frameSize ≤ s.tail_frame.length → s.tail_frame.length < 65536 →
      (rxDataSize - frameSize < s.rx_data_head → s.rx_data_tail ≠ 0) →
      (∀ j, j < frameSize →
        (s.rx_data_tail + j) % rxDataSize ≠ startPos s) →
      (bufferFrameHeader (fuel + 14) s frame).rx_data_tail =
          (s.rx_data_tail + dropsNeeded s) % rxDataSize ∧
      (bufferFrameHeader (fuel + 14) s frame).tail_frame.length =
          s.tail_frame.length - dropsNeeded s ∧
      (dropsNeeded s = 0 →
        (bufferFrameHeader (fuel + 14) s frame).rx_data_tail =
            s.rx_data_tail ∧
        (bufferFrameHeader (fuel + 14) s frame).connections =
            s.connections) ∧
      (0 < dropsNeeded s →
        ((bufferFrameHeader (fuel + 14) s frame).connections
          s.tail_frame.cid).error = true)) ∧
    (rxDataSize - frameSize < s.rx_data_head → s.rx_data_tail = 0 →
      frameSize + 1 ≤ s.tail_frame.length → s.tail_frame.length < 65536 →
      (bufferFrameHeader (fuel + 14) s frame).rx_data_tail =
          frameSize + 1 ∧
      (bufferFrameHeader (fuel + 14) s frame).tail_frame.length =
          s.tail_frame.length - (frameSize + 1) ∧
      ((bufferFrameHeader (fuel + 14) s frame).connections
          s.tail_frame.cid).error = true) := by
  have hfs : frameSize = 10 := rfl
  have hN : rxDataSize = 256 := rfl
  refine ⟨?_, ?_, ?_, ?_⟩
  · intro hempty
    show bufferFrameHeader ((fuel + 13) + 1) s frame = _
    rw [bufferFrameHeader, if_pos hempty]
  · intro hne
    have h := bufferFrameHeader_head_data (fuel + 13) s frame htr hne hwf
    exact h
  · intro hne hlen hlen2 hreloc hsep
    have hd0 : ∀ t : GSState, dropData (fuel + 13) t 0 = t := by
      intro t
      show dropData ((fuel + 12) + 1) t 0 = t
      rw [dropData]
    have hdrop : ∀ t : GSState, t.rx_data_tail = s.rx_data_tail →
        t.tail_frame = s.tail_frame → t.rx_data_head = startPos s →
        dropData (fuel + 13) t (frameSize - freeRoom s) =
          dropCount (frameSize - freeRoom s) t := by
      intro t h1 h2 h3
      have hk10 : frameSize - freeRoom s ≤ 10 := by
        rw [← hfs]; exact Nat.sub_le _ _
      rw [show fuel + 13 =
        (fuel + 11 - (frameSize - freeRoom s)) + (frameSize - freeRoom s) + 2
        by omega]
      apply dropData_run
      · intro j hj
        rw [h1, h3]
        exact hsep j (by omega)
      · rw [h2]; omega
      · rw [h2]; exact hlen2
      · rw [h1]; exact htail
    have hr : bufferFrameHeader (fuel + 14) s frame =
        { dropCount (dropsNeeded s)
            { s with rx_data_head := startPos s } with
          rx_data := writeBytes s.rx_data (startPos s) (encodeFrame frame),
          rx_data_head := (startPos s + frameSize) % rxDataSize } := by
      show bufferFrameHeader ((fuel + 13) + 1) s frame = _
      rw [bufferFrameHeader]
      rw [if_neg hne]
      by_cases hrel : rxDataSize - frameSize < s.rx_data_head
      · have hstart : startPos s = 0 := by unfold startPos; rw [if_pos hrel]
        have htne := hreloc hrel
        simp only [gt_iff_lt, if_pos hrel, Nat.sub_self, hd0, ite_self,
          if_neg htne]
        have hfree : freeRoom s =
            (s.rx_data_tail + rxDataSize - 0 - 1) % rxDataSize := by
          unfold freeRoom
          rw [hstart]
        by_cases hfr : (s.rx_data_tail + rxDataSize - 0 - 1) % rxDataSize <
            frameSize
        · rw [if_pos hfr]
          have hdn : dropsNeeded s =
              frameSize - (s.rx_data_tail + rxDataSize - 0 - 1) %
                rxDataSize := by
            unfold dropsNeeded
            rw [hfree, if_pos hfr]
          rw [show ({ s with rx_data_head := 0 } : GSState) =
            { s with rx_data_head := startPos s } by rw [hstart]]
          rw [show (s.rx_data_tail + rxDataSize - 0 - 1) % rxDataSize =
            freeRoom s from hfree.symm]
          rw [hdrop { s with rx_data_head := startPos s } rfl rfl rfl]
          rw [show frameSize - freeRoom s = dropsNeeded s by
            rw [hdn, hfree]]
          rw [dropCount_data, dropCount_head]
        · rw [if_neg hfr]
          have hdn : dropsNeeded s = 0 := by
            unfold dropsNeeded
            rw [hfree, if_neg hfr]
          rw [hdn]
          rw [show dropCount 0 { s with rx_data_head := startPos s } =
            { s with rx_data_head := startPos s } from by
              unfold dropCount; rw [if_pos rfl]]
          rw [hstart]
      · have hstart : startPos s = s.rx_data_head := by
          unfold startPos; rw [if_neg hrel]
        simp only [gt_iff_lt, if_neg hrel]
        have hfree : freeRoom s =
            (s.rx_data_tail + rxDataSize - s.rx_data_head - 1) %
              rxDataSize := by
          unfold freeRoom
          rw [hstart]
        by_cases hfr : (s.rx_data_tail + rxDataSize - s.rx_data_head - 1) %
            rxDataSize < frameSize
        · rw [if_pos hfr]
          have hdn : dropsNeeded s = frameSize -
              (s.rx_data_tail + rxDataSize - s.rx_data_head - 1) %
                rxDataSize := by
            unfold dropsNeeded
            rw [hfree, if_pos hfr]
          rw [show frameSize - (s.rx_data_tail + rxDataSize -
              s.rx_data_head - 1) % rxDataSize = frameSize - freeRoom s by
            rw [hfree]]
          rw [hdrop s rfl rfl hstart.symm]
          rw [show frameSize - freeRoom s = dropsNeeded s by
            rw [hdn, hfree]]
          rw [dropCount_data, dropCount_head]
          rw [show ({ s with rx_data_head := startPos s } : GSState) = s by
            rw [hstart]]
          rw [hstart]
        · rw [if_neg hfr]
          have hdn : dropsNeeded s = 0 := by
            unfold dropsNeeded
            rw [hfree, if_neg hfr]
          rw [hdn]
          rw [show dropCount 0 { s with rx_data_head := startPos s } =
            { s with rx_data_head := startPos s } from by
              unfold dropCount; rw [if_pos rfl]]
          rw [show ({ s with rx_data_head := startPos s } : GSState) = s by
            rw [hstart]]
          rw [hstart]
    rw [hr]
    refine ⟨?_, ?_, ?_, ?_⟩
    · show (dropCount (dropsNeeded s)
        { s with rx_data_head := startPos s }).rx_data_tail = _
      unfold dropCount
      split
      · next hz =>
        rw [hz, Nat.add_zero, Nat.mod_eq_of_lt htail]
      · rfl
    · show (dropCount (dropsNeeded s)
        { s with rx_data_head := startPos s }).tail_frame.length = _
      unfold dropCount
      split
      · next hz => rw [hz]; simp
      · rfl
    · intro hz
      constructor
      · show (dropCount (dropsNeeded s)
          { s with rx_data_head := startPos s }).rx_data_tail = _
        unfold dropCount
        rw [if_pos hz]
      · show (dropCount (dropsNeeded s)
          { s with rx_data_head := startPos s }).connections = _
        unfold dropCount
        rw [if_pos hz]
    · intro hz
      show ((dropCount (dropsNeeded s)
        { s with rx_data_head := startPos s }).connections
          s.tail_frame.cid).error = true
      unfold dropCount
      rw [if_neg (by omega)]
      simp [updateConn]
  · intro hrel h0 hlen hlen2
    have hne : ¬ s.rx_data_head = s.rx_data_tail := by
      rw [h0]
      omega
    have hb : dropData (fuel + 13) s 1 = dropCount 1 s := by
      rw [show fuel + 13 = (fuel + 10) + 1 + 2 by omega]
      apply dropData_run 1 (fuel + 10) s
      · intro j hj
        have hj0 : j = 0 := by omega
        subst hj0
        rw [h0]
        unfold rxDataSize
        unfold rxDataSize frameSize at hrel
        omega
      · omega
      · omega
      · rw [h0]
        omega
    have ht1 : (s.rx_data_tail + 1) % rxDataSize = 1 := by
      rw [h0]
      decide
    have hfree0 : ((dropCount 1 s).rx_data_tail + rxDataSize - 0 - 1) %
        rxDataSize = 0 := by
      rw [dropCount_tail 1 s (by omega), ht1]
      decide
    have hrun : dropData (fuel + 13)
        { dropCount 1 s with rx_data_head := 0 } (frameSize - 0) =
        dropCount frameSize { dropCount 1 s with rx_data_head := 0 } := by
      rw [Nat.sub_zero]
      rw [show fuel + 13 = (fuel + 1) + frameSize + 2 by rw [hfs]]
      apply dropData_run frameSize (fuel + 1)
        { dropCount 1 s with rx_data_head := 0 }
      · intro j hj
        show ((dropCount 1 s).rx_data_tail + j) % rxDataSize ≠ 0
        rw [dropCount_tail 1 s (by omega), ht1]
        rw [hfs] at hj
        unfold rxDataSize
        omega
      · show frameSize ≤ (dropCount 1 s).tail_frame.length
        rw [dropCount_len 1 s (by omega)]
        omega
      · show (dropCount 1 s).tail_frame.length < 65536
        rw [dropCount_len 1 s (by omega)]
        omega
      · show (dropCount 1 s).rx_data_tail < rxDataSize
        rw [dropCount_tail 1 s (by omega), ht1]
        omega
    have hr4 : bufferFrameHeader (fuel + 14) s frame =
        { dropCount frameSize { dropCount 1 s with rx_data_head := 0 } with
            rx_data := writeBytes s.rx_data 0 (encodeFrame frame),
            rx_data_head := (0 + frameSize) % rxDataSize } := by
      show bufferFrameHeader ((fuel + 13) + 1) s frame = _
      rw [bufferFrameHeader]
      rw [if_neg hne]
      simp only [gt_iff_lt, if_pos hrel, Nat.sub_self, dropData_zero,
        ite_self, if_pos h0]
      rw [hb]
      rw [hfree0]
      rw [if_pos (show (0 : Nat) < frameSize by decide)]
      rw [hrun]
      have hdata2 : (dropCount frameSize
          { dropCount 1 s with rx_data_head := 0 }).rx_data = s.rx_data := by
        rw [dropCount_data]
        show (dropCount 1 s).rx_data = s.rx_data
        rw [dropCount_data]
      have hhead2 : (dropCount frameSize
          { dropCount 1 s with rx_data_head := 0 }).rx_data_head = 0 := by
        rw [dropCount_head]
      rw [hdata2, hhead2]
    rw [hr4]
    refine ⟨?_, ?_, ?_⟩
    · show (dropCount frameSize
        { dropCount 1 s with rx_data_head := 0 }).rx_data_tail =
          frameSize + 1
      rw [dropCount_tail frameSize _ (by decide)]
      show ((dropCount 1 s).rx_data_tail + frameSize) % rxDataSize =
        frameSize + 1
      rw [dropCount_tail 1 s (by omega), ht1]
      decide
    · show (dropCount frameSize
        { dropCount 1 s with rx_data_head := 0 }).tail_frame.length =
          s.tail_frame.length - (frameSize + 1)
      rw [dropCount_len frameSize _ (by decide)]
      show (dropCount 1 s).tail_frame.length - frameSize =
        s.tail_frame.length - (frameSize + 1)
      rw [dropCount_len 1 s (by omega)]
      omega
    · have hcid : ({ dropCount 1 s with rx_data_head := 0 } :
          GSState).tail_frame.cid = s.tail_frame.cid := dropCount_cid 1 s
      have hcc := dropCount_conn frameSize
        { dropCount 1 s with rx_data_head := 0 } (by decide)
      rw [hcid] at hcc
      exact hcc

/-- C6 witness: the frame-header theorem applied to three concrete
states: an empty buffer (the frame becomes tail_frame), the nonempty
c6State with 4 free bytes (the record is read back verbatim at the
head position and the tail connection is marked after the forced
drops), and a wrapped buffer with the tail at index 0 needing
relocation (frameSize + 1 bytes leave the tail). -/
theorem C6_witness :
    (c6EmptyState.rx_data_head = c6EmptyState.rx_data_tail ∧
      (bufferFrameHeader 14 c6EmptyState c6EmptyState.head_frame).tail_frame =
        c6EmptyState.head_frame) ∧
    ((c6State.rx_data_head ≠ c6State.rx_data_tail ∧
      frameSize ≤ c6State.tail_frame.length) ∧
      ((bufferFrameHeader 14 c6State c6State.head_frame).rx_data.drop
          (startPos c6State)).take frameSize =
        encodeFrame c6State.head_frame ∧
      ((bufferFrameHeader 14 c6State c6State.head_frame).connections
          c6State.tail_frame.cid).error = true) ∧
    ((rxDataSize - frameSize < c6ZeroTailState.rx_data_head ∧
      c6ZeroTailState.rx_data_tail = 0) ∧
      (bufferFrameHeader 14 c6ZeroTailState
        c6ZeroTailState.head_frame).rx_data_tail = frameSize + 1) := by
  refine ⟨⟨rfl, ?_⟩, ⟨⟨by decide, by decide⟩, ?_, ?_⟩, ⟨⟨by decide, rfl⟩, ?_⟩⟩
  · have h := (C6_bufferFrameHeader 0 c6EmptyState c6EmptyState.head_frame
      rfl (by decide) (by decide) (by decide) rfl).1 rfl
    rw [h]
  · exact ((C6_bufferFrameHeader 0 c6State c6State.head_frame rfl
      (by decide) (by decide) (by decide) rfl).2.1 (by decide)).2
  · have hsep : ∀ j, j < frameSize →
        (c6State.rx_data_tail + j) % rxDataSize ≠ startPos c6State := by
      intro j hj
      unfold frameSize at hj
      have hst : startPos c6State = 20 := by decide
      rw [hst]
      show (25 + j) % 256 ≠ 20
      omega
    exact ((C6_bufferFrameHeader 0 c6State c6State.head_frame rfl
      (by decide) (by decide) (by decide) rfl).2.2.1 (by decide) (by decide)
      (by decide) (by intro hh; exact absurd hh (by decide)) hsep).2.2.2
      (by decide)
  · exact ((C6_bufferFrameHeader 0 c6ZeroTailState
      c6ZeroTailState.head_frame rfl (by decide) (by decide) (by decide)
      rfl).2.2.2 (by decide) rfl (by decide) (by decide)).1

/-- C4: the SPI fault latch.  Reading 21 consecutive reserved
all-ones wire bytes from the initial link state latches the permanent
unrecoverable fault (20 do not); once the latch is set, every read
call returns the failure sentinel -1 without touching the transport
(no wire byte consumed, nothing clocked out) and every write call
returns without writing, until explicit re-initialization (nothing in
the link layer ever clears the latch); and any non-all-ones wire byte
outside an escape pair resets the consecutive count to zero. -/
theorem C4_fault_latch :
    ((processSpiList linkInit
        (List.replicate 21 SPI_SPECIAL_ALL_ONE)).unrecoverableError =
        true ∧
      (processSpiList linkInit
        (List.replicate 20 SPI_SPECIAL_ALL_ONE)).unrecoverableError =
        false) ∧
    (∀ (s : LinkState) (wire : List Nat) (tries : Nat),
      s.unrecoverableError = true →
      readRaw_spi s wire tries = (s, wire, [], none)) ∧
    (∀ (s : LinkState) (wire buf : List Nat),
      s.unrecoverableError = true →
      writeRaw_spi s wire buf = (s, wire, [], [])) ∧
    (∀ (s : LinkState) (c : Nat), s.spi_prev_was_esc = false →
      c ≠ SPI_SPECIAL_ALL_ONE →
      (processSpiSpecial s c).1.errorcount = 0) := by
  refine ⟨⟨by decide, by decide⟩, ?_, ?_, ?_⟩
  · intro s wire tries h
    unfold readRaw_spi
    rw [if_pos h]
  · intro s wire buf h
    cases buf with
    | nil => rfl
    | cons b rest =>
      show writeRawSpiGo s wire (b :: rest) 1024 = _
      rw [writeRawSpiGo]
      rw [if_neg (by decide : ¬ (1024 : Nat) = 0)]
      have hw : spiXoffWait s wire 1024 = (s, wire, [], [], 1024, true) := by
        show spiXoffWait s wire (1023 + 1) = _
        rw [spiXoffWait]
        rw [if_pos h]
      rw [hw]
      simp
  · intro s c hesc hc
    unfold processSpiSpecial
    rw [if_neg (by simp [hesc])]
    simp only [if_pos hc]
    rw [if_neg hc]
    split_ifs <;> rfl

/-- C4 witness: the fault-latch theorem instantiated on a latched link
state with concrete pending wire bytes, and the count-reset clause on
the byte 65 from the initial state. -/
theorem C4_witness :
    ({ linkInit with unrecoverableError := true } :
        LinkState).unrecoverableError = true ∧
    readRaw_spi { linkInit with unrecoverableError := true } [1, 2, 3] 64 =
      ({ linkInit with unrecoverableError := true }, [1, 2, 3], [],
        none) ∧
    writeRaw_spi { linkInit with unrecoverableError := true } [1]
        [65, 66] =
      ({ linkInit with unrecoverableError := true }, [1], [], []) ∧
    (processSpiSpecial linkInit 65).1.errorcount = 0 :=
  ⟨by decide,
    C4_fault_latch.2.1 _ [1, 2, 3] 64 (by decide),
    C4_fault_latch.2.2.1 _ [1] [65, 66] (by decide),
    C4_fault_latch.2.2.2 linkInit 65 (by decide) (by decide)⟩

/-- C7 counterexample: in the full accumulation state c7State
(previous data 80 81 82, current line 65 66 67, MAX_RESPONSE_SIZE 13),
the incoming byte 88 evicts 82 - the newest byte of the previous
completed-but-unconsumed data - while the oldest byte 80 stays,
refuting "the oldest byte ... is evicted"; the current line also grows
by a stale duplicate of its last byte (67) while 88 itself is written
out of bounds and lost.  And although the result is now marked
truncated (dropped_data = true), the next byte 89 still changes the
accumulated data: it evicts 81 and grows the line again, refuting
"once any byte has been evicted this way ... no further bytes are
added". -/
theorem C7_counterexample :
    responseLineStep 13 true false false c7State 88 =
      .cont ⟨[80, 81, 65, 66, 67, 67], 6, 6, 2, false, true⟩ ∧
    responseLineStep 13 true false false
        ⟨[80, 81, 65, 66, 67, 67], 6, 6, 2, false, true⟩ 89 =
      .cont ⟨[80, 65, 66, 67, 67, 67], 6, 6, 1, false, true⟩ := by
  decide

/-- C7 (amended): while a response line is being accumulated and the
destination buffer is full: if the current line is already too long to
be a valid response, the byte is discarded with the line marked to be
skipped (and a marked line is removed wholesale when its terminator
arrives, discarding its remaining bytes); otherwise the newest (last)
byte of the previous completed-but-unconsumed data is evicted - not
the oldest - by shifting the current line down one byte: the older
previous data and the line's contents survive contiguously (no gaps),
the incoming byte is written one slot past the end of the buffer (out
of bounds, lost), and the result is marked as having dropped data.
The mark does not disable the policy: each further ordinary byte
triggers another eviction. -/
theorem C7_line_buffer_policy (maxResp : Nat) (kd hc hcid : Bool)
    (st : LineAccState) (c : Nat)
    (hbuf : st.buf.length = st.len)
    (hread : st.read = st.len)
    (hls : st.line_start ≤ st.read)
    (hc13 : ¬ (c = 13 ∨ c = 10)) :
    (maxResp ≤ st.read - st.line_start →
      responseLineStep maxResp kd hc hcid st c =
        .cont { st with skip_line := true, dropped_data := true }) ∧
    (st.read - st.line_start < maxResp → 0 < st.line_start →
      responseLineStep maxResp kd hc hcid st c =
        .cont { st with buf := evictShift st.buf st.line_start st.read c,
                        line_start := st.line_start - 1,
                        dropped_data := true } ∧
      (evictShift st.buf st.line_start st.read c).take
          (st.line_start - 1) = st.buf.take (st.line_start - 1) ∧
      ((evictShift st.buf st.line_start st.read c).drop
          (st.line_start - 1)).take (st.read - st.line_start) =
        (st.buf.drop st.line_start).take (st.read - st.line_start) ∧
      (evictShift st.buf st.line_start st.read c).length =
        st.buf.length) ∧
    (∀ c2, (c2 = 13 ∨ c2 = 10) → st.skip_line = true →
      st.read ≠ st.line_start →
      responseLineStep maxResp kd hc hcid st c2 =
        .cont { st with skip_line := false, read := st.line_start }) := by
  refine ⟨?_, ?_, ?_⟩
  · intro hlong
    unfold responseLineStep
    rw [if_neg hc13, if_neg (by omega), if_pos hlong]
  · intro hshort hls0
    have hlenA : (st.buf.take (st.line_start - 1)).length =
        st.line_start - 1 := by
      rw [List.length_take]
      omega
    have hlenB : ((st.buf.drop st.line_start).take
        (st.read - st.line_start)).length = st.read - st.line_start := by
      rw [List.length_take, List.length_drop]
      omega
    have hlenC : (st.buf.drop (st.read - 1)).length = 1 := by
      rw [List.length_drop]
      omega
    have hnodrop : (st.buf.take (st.line_start - 1) ++
        (st.buf.drop st.line_start).take (st.read - st.line_start) ++
        st.buf.drop (st.read - 1)).length ≤ st.read := by
      rw [List.length_append, List.length_append, hlenA, hlenB, hlenC]
      omega
    have hshift : evictShift st.buf st.line_start st.read c =
        st.buf.take (st.line_start - 1) ++
        (st.buf.drop st.line_start).take (st.read - st.line_start) ++
        st.buf.drop (st.read - 1) := by
      unfold evictShift
      exact List.set_eq_of_length_le hnodrop
    refine ⟨?_, ?_, ?_, ?_⟩
    · unfold responseLineStep
      rw [if_neg hc13, if_neg (by omega), if_neg (by omega), if_pos hls0]
    · rw [hshift]
      rw [List.append_assoc]
      exact List.take_left' hlenA
    · rw [hshift]
      rw [List.append_assoc]
      rw [List.drop_left' hlenA]
      exact List.take_left' hlenB
    · rw [hshift]
      simp only [List.length_append]
      omega
  · intro c2 hc2 hskip hneq
    unfold responseLineStep
    rw [if_pos hc2, if_neg (by omega), if_pos hskip]

/-- C7 witness: the amended buffer-full policy applied to the concrete
full state c7State and the byte 88. -/
theorem C7_witness :
    (c7State.buf.length = c7State.len ∧ c7State.read = c7State.len ∧
      c7State.read - c7State.line_start < 13 ∧ 0 < c7State.line_start) ∧
    responseLineStep 13 true false false c7State 88 =
      .cont { c7State with
          buf := evictShift c7State.buf c7State.line_start c7State.read 88,
          line_start := c7State.line_start - 1,
          dropped_data := true } :=
  ⟨⟨by decide, by decide, by decide, by decide⟩,
    ((C7_line_buffer_policy 13 true false false c7State 88 (by decide)
      (by decide) (by decide) (by decide)).2.1 (by decide) (by decide)).1⟩

end GSVerify
